import Mathlib

/-!
Verification development for the SurveillX activity-detection engine
(src/engines/activity_detection/: tracker.py, rules.py, classifier.py,
detector.py).  The Python code is shallowly embedded: pixel coordinates,
timestamps and configuration thresholds are rationals (float literals such
as 1e-6 or 0.05 are taken at their decimal value), derived geometry that
the source computes with math.sqrt / math.atan2 / np.arccos lives in ℝ,
stateful classes become explicit state records threaded through
functions, and Python dicts (which preserve insertion order) become
insertion-ordered association lists.  Every operation is total, mirroring
the source's behaviour on the inputs it can actually receive; where a
Python exception would be raised and swallowed by an enclosing
try/except, the embedding returns the same value the except-branch
produces.
-/

namespace SurveillX

/-- Propositions about real-valued geometry are decided classically, as
the source decides them on floats; every definition touching ℝ is
noncomputable for this reason.  Low priority keeps the computable
instances in charge everywhere else. -/
noncomputable instance (priority := 10) classicalDec (p : Prop) : Decidable p :=
  Classical.propDecidable p

/-! ## Generic containers: Python deque, dict and list slicing -/

/-- Python slicing xs[-n:] as used in tracker.get_velocity: the last n
elements of the list, except that n = 0 yields the whole list. -/
def pyTakeLast {α : Type} (n : Nat) (xs : List α) : List α :=
  if n = 0 then xs else xs.drop (xs.length - n)

/-- collections.deque with maxlen m: appending to a full deque silently
evicts the oldest (leftmost) element. -/
def dequeAppend {α : Type} (m : Nat) (xs : List α) (x : α) : List α :=
  (xs ++ [x]).drop (xs.length + 1 - m)

/-- Lookup in an insertion-ordered association list (Python dict.get). -/
def alistGet? {κ β : Type} [DecidableEq κ] (k : κ) : List (κ × β) → Option β
  | [] => none
  | (k', v) :: l => if k' = k then some v else alistGet? k l

/-- Lookup with a default (Python dict.get(k, d) and defaultdict reads). -/
def alistGetD {κ β : Type} [DecidableEq κ] (k : κ) (l : List (κ × β)) (d : β) : β :=
  (alistGet? k l).getD d

/-- Insertion-ordered dict write: overwrite in place if the key exists,
otherwise append at the end (Python d[k] = v). -/
def alistSet {κ β : Type} [DecidableEq κ] (k : κ) (v : β) : List (κ × β) → List (κ × β)
  | [] => [(k, v)]
  | (k', v') :: l => if k' = k then (k, v) :: l else (k', v') :: alistSet k v l

/-- Dict key removal preserving the order of the other keys (dict.pop). -/
def alistPop {κ β : Type} [DecidableEq κ] (k : κ) (l : List (κ × β)) : List (κ × β) :=
  l.filter (fun e => decide (e.1 ≠ k))

/-- Keys of an association list, in insertion order. -/
def alistKeys {κ β : Type} (l : List (κ × β)) : List κ :=
  l.map Prod.fst

/-- Number of true entries of a boolean voting buffer (Python sum(deque)). -/
def countTrue (l : List Bool) : Nat :=
  l.count true

/-! ## Data model (detector.py) -/

/-- A 2-dimensional numpy array of floats, with its shape.  Entries
outside the shape are irrelevant junk (numpy would raise; the embedded
code never reads them on the inputs it receives). -/
structure Arr2 where
  rows : Nat
  cols : Nat
  entry : Nat → Nat → ℚ

/-- PersonPose (detector.py): keypoints is the (17, 2) array of x, y
coordinates produced by PoseDetector.detect (kps[:, :2]), confidences the
separate (17,) per-keypoint confidence array (kps[:, 2]), bbox the
optional [x1, y1, x2, y2] box. -/
structure PersonPose where
  keypoints : Arr2
  confidences : Nat → ℚ
  bbox : Option (ℚ × ℚ × ℚ × ℚ)

instance : Inhabited PersonPose :=
  ⟨⟨⟨0, 0, fun _ _ => 0⟩, fun _ => 0, none⟩⟩

/-- Keypoint row i as a 2-D point. -/
def PersonPose.kp (p : PersonPose) (i : Nat) : ℚ × ℚ :=
  (p.keypoints.entry i 0, p.keypoints.entry i 1)

/-- PersonPose.midpoint of two keypoints (detector.py / classifier.py
midpoint helper). -/
def PersonPose.mid (p : PersonPose) (i j : Nat) : ℚ × ℚ :=
  (((p.kp i).1 + (p.kp j).1) / 2, ((p.kp i).2 + (p.kp j).2) / 2)

/-! ## Geometry helpers (classifier.py, tracker.py) -/

/-- Euclidean distance between two points (the _distance helpers in
classifier.py and tracker.py). -/
noncomputable def rdist (p q : ℚ × ℚ) : ℝ :=
  Real.sqrt ((((p.1 - q.1) ^ 2 + (p.2 - q.2) ^ 2 : ℚ) : ℝ))

/-- Intersection-over-union of two [x1,y1,x2,y2] boxes (_iou in
tracker.py), with its 1e-6 regulariser. -/
def iou (a b : ℚ × ℚ × ℚ × ℚ) : ℚ :=
  let x1 := max a.1 b.1
  let y1 := max a.2.1 b.2.1
  let x2 := min a.2.2.1 b.2.2.1
  let y2 := min a.2.2.2 b.2.2.2
  let inter := max 0 (x2 - x1) * max 0 (y2 - y1)
  if inter = 0 then 0
  else
    let areaA := (a.2.2.1 - a.1) * (a.2.2.2 - a.2.1)
    let areaB := (b.2.2.1 - b.1) * (b.2.2.2 - b.2.1)
    inter / (areaA + areaB - inter + 1 / 1000000)

/-- Torso tilt in degrees (classifier.py _check_falling):
abs(degrees(atan2(abs(dx), abs(dy) + 1e-6))).  Both atan2 arguments are
nonnegative and the second is positive, so atan2 is arctan of their
quotient. -/
noncomputable def torsoAngleDeg (dx dy : ℚ) : ℝ :=
  |Real.arctan (((|dx| / (|dy| + 1 / 1000000) : ℚ) : ℝ)) * (180 / Real.pi)|

/-- Angle at vertex b of the triangle a-b-c in degrees (classifier.py
_angle_deg), via the clipped cosine formula. -/
noncomputable def angleDeg (a b c : ℚ × ℚ) : ℝ :=
  let bax : ℝ := ((a.1 - b.1 : ℚ) : ℝ)
  let bay : ℝ := ((a.2 - b.2 : ℚ) : ℝ)
  let bcx : ℝ := ((c.1 - b.1 : ℚ) : ℝ)
  let bcy : ℝ := ((c.2 - b.2 : ℚ) : ℝ)
  let cosv := (bax * bcx + bay * bcy) /
    (Real.sqrt (bax ^ 2 + bay ^ 2) * Real.sqrt (bcx ^ 2 + bcy ^ 2) + 1 / 1000000)
  Real.arccos (max (-1) (min 1 cosv)) * (180 / Real.pi)

/-- keypoint_valid (classifier.py): every listed keypoint index clears
the minimum confidence. -/
def keypointValid (confs : Nat → ℚ) (idxs : List Nat) (minConf : ℚ) : Bool :=
  idxs.all (fun i => decide (minConf ≤ confs i))

/-! ## Configuration and metadata (rules.py) -/

/-- ActivityRules (rules.py): all tunable thresholds, with the reference
defaults as dataclass field defaults. -/
structure ActivityRules where
  falling_angle : ℚ := 75
  falling_min_confidence : ℚ := 1 / 2
  falling_hip_offset : ℚ := 120
  falling_hip_angle_req : ℚ := 60
  falling_aspect_ratio : ℚ := 13 / 10
  falling_persistence : Nat := 4
  falling_window : Nat := 8
  fighting_proximity : ℚ := 80
  fighting_arm_speed : ℚ := 25
  fighting_min_frames : Nat := 3
  running_velocity : ℚ := 2200
  running_min_frames : Nat := 6
  loiter_duration : ℚ := 60
  loiter_radius : ℚ := 50
  activity_cooldown : ℚ := 5
  global_confidence_floor : ℚ := 9 / 20
  min_keypoint_confidence : ℚ := 3 / 10

/-- ACTIVITY_PRIORITY.get(t, 0) (rules.py). -/
def activityPriority (t : String) : Nat :=
  if t = "fighting" then 4
  else if t = "falling" then 3
  else if t = "running" then 2
  else if t = "loitering" then 1
  else 0

/-- Severity and abnormality of ACTIVITY_METADATA.get(t, METADATA of
normal) (rules.py): unknown types fall back to the normal entry. -/
def activitySeverity (t : String) : String :=
  if t = "running" then "medium"
  else if t = "fighting" then "high"
  else if t = "falling" then "high"
  else "low"

/-- is_abnormal flag of ACTIVITY_METADATA.get(t, METADATA of normal). -/
def activityIsAbnormal (t : String) : Bool :=
  t = "running" || t = "fighting" || t = "falling" || t = "loitering"

/-! ## Person tracker (tracker.py) -/

/-- One track's history entry: (x, y, timestamp). -/
abbrev TrackEntry : Type := ℚ × ℚ × ℚ

/-- PersonTracker state (tracker.py __init__): insertion-ordered maps
track id to bounded history, to last-seen timestamp and to last bounding
box, plus the monotone id counter. -/
structure TrackerState where
  max_history : Nat := 150
  max_distance : ℚ := 120
  iou_threshold : ℚ := 1 / 5
  stale_timeout : ℚ := 3
  tracks : List (Nat × List TrackEntry) := []
  last_seen : List (Nat × ℚ) := []
  last_bbox : List (Nat × (ℚ × ℚ × ℚ × ℚ)) := []
  next_id : Nat := 0

/-- Inner matching loop of PersonTracker.update: fold over the tracks in
insertion order keeping the strictly best score; IoU matches (score
iou + 1) outrank centroid matches (score 1 - dist/max_distance); used or
empty tracks are skipped.  Score accumulator starts at (none, -1). -/
noncomputable def bestMatch (ts : TrackerState) (used : List Nat)
    (c : ℚ × ℚ) (bbox : Option (ℚ × ℚ × ℚ × ℚ)) : Option Nat × ℝ :=
  ts.tracks.foldl
    (fun best th =>
      if th.1 ∈ used ∨ th.2 = [] then best
      else
        let score0 : ℝ :=
          match bbox, alistGet? th.1 ts.last_bbox with
          | some b, some lb =>
            let i := iou b lb
            if ts.iou_threshold ≤ i then ((i : ℚ) : ℝ) + 1 else 0
          | _, _ => 0
        let score : ℝ :=
          if score0 < 1 / 100 then
            let last := th.2.getLastD default
            let d := rdist c (last.1, last.2.1)
            if d < ((ts.max_distance : ℚ) : ℝ) then 1 - d / ((ts.max_distance : ℚ) : ℝ)
            else 0
          else score0
        if best.2 < score then (some th.1, score) else best)
    (none, -1)

/-- One iteration of the detection loop in PersonTracker.update: match or
create a track for one centroid, append its history sample, update
last_seen / last_bbox / the returned centroid-keyed dict, and mark the
track used. -/
noncomputable def trackerStep (ts : TrackerState) (used : List Nat)
    (matched : List ((ℚ × ℚ) × Nat)) (c : ℚ × ℚ) (bbox : Option (ℚ × ℚ × ℚ × ℚ))
    (timestamp : ℚ) : TrackerState × List Nat × List ((ℚ × ℚ) × Nat) :=
  let bm := bestMatch ts used c bbox
  let tid : Nat :=
    match bm.1 with
    | none => ts.next_id
    | some t => if bm.2 ≤ 0 then ts.next_id else t
  let nextId : Nat :=
    match bm.1 with
    | none => ts.next_id + 1
    | some _ => if bm.2 ≤ 0 then ts.next_id + 1 else ts.next_id
  let hist := dequeAppend ts.max_history (alistGetD tid ts.tracks []) (c.1, c.2, timestamp)
  let ts' : TrackerState :=
    { ts with
      tracks := alistSet tid hist ts.tracks
      last_seen := alistSet tid timestamp ts.last_seen
      last_bbox := match bbox with
        | some b => alistSet tid b ts.last_bbox
        | none => ts.last_bbox
      next_id := nextId }
  (ts', tid :: used, alistSet (c.1, c.2) tid matched)

/-- The detection loop of PersonTracker.update over all centroids, with
the per-index optional bbox consumed in lockstep (bboxes[idx] when it
exists, None otherwise). -/
noncomputable def trackerLoop (timestamp : ℚ) :
    TrackerState → List Nat → List ((ℚ × ℚ) × Nat) → List (ℚ × ℚ) →
    List (Option (ℚ × ℚ × ℚ × ℚ)) → TrackerState × List ((ℚ × ℚ) × Nat)
  | ts, _, matched, [], _ => (ts, matched)
  | ts, used, matched, c :: cs, bbs =>
    let r := trackerStep ts used matched c (bbs.headD none) timestamp
    trackerLoop timestamp r.1 r.2.1 r.2.2 cs bbs.tail

/-- Stale purge at the end of PersonTracker.update: drop every track
whose last_seen is strictly older than the stale timeout. -/
def purgeStale (ts : TrackerState) (timestamp : ℚ) : TrackerState :=
  let stale := (ts.last_seen.filter (fun e => decide (ts.stale_timeout < timestamp - e.2))).map
    Prod.fst
  { ts with
    tracks := ts.tracks.filter (fun e => decide (e.1 ∉ stale))
    last_seen := ts.last_seen.filter (fun e => decide (e.1 ∉ stale))
    last_bbox := ts.last_bbox.filter (fun e => decide (e.1 ∉ stale)) }

/-- PersonTracker.update: match every detection, then purge stale
tracks; returns the new state and the dict mapping (cx, cy) to track
id. -/
noncomputable def trackerUpdate (ts : TrackerState) (centroids : List (ℚ × ℚ))
    (timestamp : ℚ) (bboxes : List (Option (ℚ × ℚ × ℚ × ℚ))) :
    TrackerState × List ((ℚ × ℚ) × Nat) :=
  let r := trackerLoop timestamp ts [] [] centroids bboxes
  (purgeStale r.1 timestamp, r.2)

/-- Total inter-sample distance of a history window (the loop body of
get_velocity summing _distance of consecutive samples). -/
noncomputable def totalDist : List TrackEntry → ℝ
  | [] => 0
  | [_] => 0
  | a :: b :: l => rdist (a.1, a.2.1) (b.1, b.2.1) + totalDist (b :: l)

/-- Total elapsed time of a history window (the loop body of
get_velocity summing consecutive timestamp differences). -/
def totalTime : List TrackEntry → ℚ
  | [] => 0
  | [_] => 0
  | a :: b :: l => (b.2.2 - a.2.2) + totalTime (b :: l)

/-- PersonTracker.get_velocity: None for an unknown track, a history
shorter than max(2, n_frames), or a window spanning less than 0.05 s;
otherwise total distance over the last n_frames samples divided by total
elapsed time. -/
noncomputable def getVelocity (ts : TrackerState) (tid : Nat) (n : Nat) : Option ℝ :=
  match alistGet? tid ts.tracks with
  | none => none
  | some history =>
    if history = [] ∨ history.length < max 2 n then none
    else
      let recent := pyTakeLast n history
      if totalTime recent < 1 / 20 then none
      else some (totalDist recent / ((totalTime recent : ℚ) : ℝ))

/-- PersonTracker.get_track_duration: elapsed time between oldest and
newest sample, 0 when fewer than 2 samples or the track is unknown. -/
def getTrackDuration (ts : TrackerState) (tid : Nat) : ℚ :=
  match alistGet? tid ts.tracks with
  | none => 0
  | some history =>
    if history = [] ∨ history.length < 2 then 0
    else (history.getLastD default).2.2 - (history.headD default).2.2

/-! ## Activity results and candidates (classifier.py) -/

/-- A rule check's candidate: its dict with confidence and description. -/
structure Candidate where
  conf : ℝ
  desc : String

/-- ActivityResult (classifier.py). -/
structure ActivityResult where
  type : String
  is_abnormal : Bool
  severity : String
  confidence : ℝ
  description : String

instance : Inhabited ActivityResult :=
  ⟨⟨"normal", false, "low", 0, ""⟩⟩

/-- Python round(x, 2) on the confidence.  Modelled as round-half-up on
exact rationals; no claim observes a tie, and the only confidence the
claims evaluate numerically is 0. -/
noncomputable def round2 (x : ℝ) : ℝ :=
  (⌊x * 100 + 1 / 2⌋ : ℤ) / 100

/-- ActivityClassifier._make_result: attach severity / abnormality
metadata and round the confidence. -/
noncomputable def mkResult (t : String) (conf : ℝ) (desc : String) : ActivityResult :=
  ⟨t, activityIsAbnormal t, activitySeverity t, round2 conf, desc⟩

/-! ## Rule checks (classifier.py).  Descriptions keep the source's
static text; the numeric interpolations of the f-strings (angles, pixel
distances, speeds) are elided, no claim observes them. -/

/-- ActivityClassifier._check_falling: torso-tilt rule with confidence
floor and bbox aspect-ratio veto, then the hip-below-knee fallback. -/
noncomputable def checkFalling (r : ActivityRules) (p : PersonPose) : Option Candidate :=
  if keypointValid p.confidences [5, 6, 11, 12, 13, 14] r.min_keypoint_confidence = false then
    none
  else
    let shoulderMid := p.mid 5 6
    let hipMid := p.mid 11 12
    let dx := hipMid.1 - shoulderMid.1
    let dy := hipMid.2 - shoulderMid.2
    let angle := torsoAngleDeg dx dy
    if ((r.falling_angle : ℚ) : ℝ) < angle then
      let conf : ℝ := min (9 / 10) ((angle - ((r.falling_angle : ℚ) : ℝ)) /
        (90 - ((r.falling_angle : ℚ) : ℝ)))
      if conf < ((r.falling_min_confidence : ℚ) : ℝ) then none
      else
        match p.bbox with
        | some bb =>
          let w := bb.2.2.1 - bb.1
          let h := bb.2.2.2 - bb.2.1
          if 0 < h ∧ w / h < r.falling_aspect_ratio then none
          else some ⟨conf, "Person appears to have fallen (body angle)"⟩
        | none => some ⟨conf, "Person appears to have fallen (body angle)"⟩
    else
      if ((r.falling_hip_angle_req : ℚ) : ℝ) < angle then
        let kneeMid := p.mid 13 14
        if kneeMid.2 + r.falling_hip_offset < hipMid.2 then
          match p.bbox with
          | some bb =>
            let w := bb.2.2.1 - bb.1
            let h := bb.2.2.2 - bb.2.1
            if 0 < h ∧ w / h < r.falling_aspect_ratio then none
            else some ⟨(11 / 20 : ℚ), "Person on ground (hip below knees, body tilted)"⟩
          | none => some ⟨(11 / 20 : ℚ), "Person on ground (hip below knees, body tilted)"⟩
        else none
      else none

/-- Wrist-to-torso striking-distance flag inside _check_fighting: some
wrist of either person, with confidence above 0.3, lies within 0.8 times
the fighting proximity of the other person's shoulder midpoint. -/
noncomputable def wristClose (r : ActivityRules) (pI pJ : PersonPose) : Bool :=
  let torsoJ := pJ.mid 5 6
  let torsoI := pI.mid 5 6
  decide (∃ w ∈ [9, 10],
    ((3 / 10 : ℚ) < pI.confidences w ∧
      rdist (pI.kp w) torsoJ < ((r.fighting_proximity * (4 / 5) : ℚ) : ℝ)) ∨
    ((3 / 10 : ℚ) < pJ.confidences w ∧
      rdist (pJ.kp w) torsoI < ((r.fighting_proximity * (4 / 5) : ℚ) : ℝ)))

/-- The ordered person pairs (i, j) with i < j < n visited by the nested
loops of _check_fighting. -/
def pairIdxs (n : Nat) : List (Nat × Nat) :=
  (List.range n).flatMap (fun i => (List.range' (i + 1) (n - (i + 1))).map (fun j => (i, j)))

/-- Pair loop of _check_fighting.  The wrist_body_close flag is a
function-scoped Python local first assigned inside the both-boxes
branch, and the final proximity test short-circuits: for a bbox-less
pair the flag is only read when the pair is within 0.3 times the
fighting proximity.  Reading it there before any bbox pair ran raises
NameError, which the enclosing except swallows, so the whole check
returns None; a farther bbox-less pair just falls through to the next
pair, and after a bbox pair the stale flag of the last one is read. -/
noncomputable def fightLoop (r : ActivityRules) (ps : List PersonPose) :
    List (Nat × Nat) → Option Bool → Option Candidate
  | [], _ => none
  | (i, j) :: rest, wbc =>
    let pI := ps.getD i default
    let pJ := ps.getD j default
    let dist := rdist (pI.mid 11 12) (pJ.mid 11 12)
    if ((r.fighting_proximity : ℚ) : ℝ) < dist then fightLoop r ps rest wbc
    else
      match pI.bbox, pJ.bbox with
      | some bi, some bj =>
        let overlap := iou bi bj
        let w := wristClose r pI pJ
        if (2 / 5 : ℚ) < overlap then
          let baseConf : ℚ := 3 / 5 + overlap * (3 / 10) + (if w then 3 / 20 else 0)
          some ⟨((min (9 / 10) baseConf : ℚ) : ℝ),
            "Physical altercation detected (distance, overlap)"⟩
        else if (1 / 5 : ℚ) < overlap ∧ w = true then
          some ⟨((min (17 / 20) (11 / 20 + overlap) : ℚ) : ℝ),
            "Physical altercation detected (distance, strike contact)"⟩
        else if dist < ((r.fighting_proximity * (3 / 10) : ℚ) : ℝ) ∧ w = true then
          some ⟨((3 / 5 : ℚ) : ℝ), "Potential altercation (very close)"⟩
        else fightLoop r ps rest (some w)
      | _, _ =>
        if dist < ((r.fighting_proximity * (3 / 10) : ℚ) : ℝ) then
          match wbc with
          | none => none
          | some w =>
            if w = true then
              some ⟨((3 / 5 : ℚ) : ℝ), "Potential altercation (very close)"⟩
            else fightLoop r ps rest wbc
        else fightLoop r ps rest wbc

/-- ActivityClassifier._check_fighting: needs at least two persons, then
scans the pairs. -/
noncomputable def checkFighting (r : ActivityRules) (ps : List PersonPose) : Option Candidate :=
  if ps.length < 2 then none
  else fightLoop r ps (pairIdxs ps.length) none

/-- Largest valid knee angle of _check_running (left and right
hip-knee-ankle triples, keypoint confidence 0.3, accumulator 0). -/
noncomputable def kneeAngleMax (p : PersonPose) : ℝ :=
  let step := fun (m : ℝ) (t : Nat × Nat × Nat) =>
    if keypointValid p.confidences [t.1, t.2.1, t.2.2] (3 / 10) = true then
      max m (angleDeg (p.kp t.1) (p.kp t.2.1) (p.kp t.2.2))
    else m
  step (step 0 (11, 13, 15)) (12, 14, 16)

/-- ActivityClassifier._check_running: velocity over the last 5 samples
above the threshold, with the knee-angle walking veto halving the
confidence.  The now argument mirrors the unused source parameter. -/
noncomputable def checkRunning (ts : TrackerState) (r : ActivityRules) (tid : Nat)
    (now : ℚ) (persons : List PersonPose) (personIdx : Nat) : Option Candidate :=
  match getVelocity ts tid 5 with
  | none => none
  | some v =>
    if ((r.running_velocity : ℚ) : ℝ) < v then
      let conf0 : ℝ := min (17 / 20) (v / ((r.running_velocity * 2 : ℚ) : ℝ))
      let conf : ℝ :=
        if persons.length ≠ 0 ∧ personIdx < persons.length then
          let mka := kneeAngleMax (persons.getD personIdx default)
          if 0 < mka ∧ mka < 150 then conf0 * (1 / 2) else conf0
        else conf0
      some ⟨conf, "Person running detected (speed)"⟩
    else none

/-- Maximum of a rational list, as max of a fold (nonempty use only). -/
def listMaxQ (l : List ℚ) : ℚ :=
  l.foldl max (l.headD 0)

/-- Minimum of a rational list (nonempty use only). -/
def listMinQ (l : List ℚ) : ℚ :=
  l.foldl min (l.headD 0)

/-- ActivityClassifier._check_loitering: track duration above the
threshold, at least 10 history samples, and position spread within three
loiter radii. -/
noncomputable def checkLoitering (ts : TrackerState) (r : ActivityRules) (tid : Nat) :
    Option Candidate :=
  let duration := getTrackDuration ts tid
  if duration < r.loiter_duration then none
  else
    match alistGet? tid ts.tracks with
    | none => none
    | some history =>
      if history.length < 10 then none
      else
        let xs := history.map (fun e => e.1)
        let ys := history.map (fun e => e.2.1)
        let spread := max (listMaxQ xs - listMinQ xs) (listMaxQ ys - listMinQ ys)
        if spread < r.loiter_radius * 3 then
          some ⟨((min (4 / 5) (duration / (r.loiter_duration * 2)) : ℚ) : ℝ),
            "Loitering detected (same area)"⟩
        else none

/-! ## Sequence-classifier adapter (classifier.py LSTM hooks) -/

/-- ActivityClassifier._normalise_keypoints_for_lstm: arrays whose shape
fails the (17, 3) guard normalise to the 51-dimensional zero vector;
otherwise hip-centred translation, shoulder-width scaling with the fixed
100.0 fallback when the width is below 10, confidence kept in column 2,
flattened row-major. -/
noncomputable def normaliseKeypointsForLstm (kps : Arr2) : List ℝ :=
  if kps.rows < 17 ∨ kps.cols < 3 then List.replicate 51 0
  else
    let hipX : ℚ := (kps.entry 11 0 + kps.entry 12 0) / 2
    let hipY : ℚ := (kps.entry 11 1 + kps.entry 12 1) / 2
    let bodyScale : ℝ := Real.sqrt
      ((((kps.entry 5 0 - kps.entry 6 0) ^ 2 + (kps.entry 5 1 - kps.entry 6 1) ^ 2 : ℚ) : ℝ))
    let s : ℝ := if bodyScale < 10 then 100 else bodyScale
    (List.range kps.rows).flatMap (fun i =>
      (List.range kps.cols).map (fun j =>
        if j = 0 then (((kps.entry i 0 - hipX : ℚ) : ℝ)) / s
        else if j = 1 then (((kps.entry i 1 - hipY : ℚ) : ℝ)) / s
        else if j = 2 then ((kps.entry i 2 : ℚ) : ℝ)
        else 0))

/-- ActivityClassifier state (classifier.py __init__): the voting
buffers, cooldown map, previous-keypoint cache and the LSTM adapter's
buffers.  The model is the opaque injected sequence-to-label function of
the spec; none models rules-only mode (checkpoint absent or use_lstm
False). -/
structure ClassifierState where
  rules : ActivityRules := {}
  tracker : TrackerState := {}
  falling_votes : List (Nat × List Bool) := []
  fighting_votes : List Bool := []
  running_votes : List (Nat × List Bool) := []
  cooldowns : List (String × ℚ) := []
  prev_keypoints : List (Nat × Arr2) := []
  prev_time : ℚ := 0
  lstm_model : Option (List (List ℝ) → String × ℝ) := none
  lstm_buffer : List (List ℝ) := []
  lstm_votes : List String := []

/-- ActivityClassifier(rules, use_lstm) with no model loaded. -/
def initClassifier (r : ActivityRules) : ClassifierState :=
  { rules := r }

/-- Padding of _predict_lstm: repeat the last frame up to the sequence
length of 30. -/
def padSeq (frames : List (List ℝ)) : List (List ℝ) :=
  frames ++ List.replicate (30 - frames.length) (frames.getLastD [])

/-- ActivityClassifier._predict_lstm: abstain without a model or with no
persons, otherwise buffer the primary person's normalised keypoints and
query the model once at least 15 frames accumulated. -/
noncomputable def predictLstm (st : ClassifierState) (persons : List PersonPose) :
    ClassifierState × Option (String × ℝ) :=
  match st.lstm_model with
  | none => (st, none)
  | some f =>
    if persons.length = 0 then (st, none)
    else
      let kps := (persons.headD default).keypoints
      let buf := dequeAppend 30 st.lstm_buffer (normaliseKeypointsForLstm kps)
      let st1 := { st with lstm_buffer := buf }
      if buf.length < 15 then (st1, none)
      else (st1, some (f (padSeq buf)))

/-- Step 0 of classify: LSTM prediction with two-vote temporal smoothing
and the 0.5 confidence floor. -/
noncomputable def lstmStage (st : ClassifierState) (persons : List PersonPose) :
    ClassifierState × List (String × ℝ × String) :=
  let pr := predictLstm st persons
  match pr.2 with
  | none => (pr.1, [])
  | some lc =>
    let votes1 := dequeAppend 2 pr.1.lstm_votes lc.1
    let st1 := { pr.1 with lstm_votes := votes1 }
    if 2 ≤ votes1.length ∧ lc.1 ≠ "normal" ∧ ((1 / 2 : ℚ) : ℝ) ≤ lc.2 ∧
        (pyTakeLast 2 votes1).all (fun x => decide (x = lc.1)) = true then
      (st1, [(lc.1, lc.2, "LSTM detected")])
    else (st1, [])

/-! ## Temporal voting and fusion (classify) -/

/-- A frame candidate as classify accumulates them: (type, confidence,
description). -/
abbrev Act : Type := String × ℝ × String

/-- Track id used by the falling loop for person index idx: the idx-th
value of the centroid-keyed track map when it exists, the bare index
otherwise. -/
def fallingTid (tids : List Nat) (idx : Nat) : Nat :=
  if idx < tids.length then tids.getD idx 0 else idx

/-- Step 1 of classify: per-person falling vote and candidate emission;
an abstaining check on a frame whose buffer still meets the persistence
bar contributes the default 0.55-confidence candidate. -/
noncomputable def fallingLoop (r : ActivityRules) (tids : List Nat) :
    Nat → List PersonPose → List (Nat × List Bool) → List (Nat × List Bool) × List Act
  | _, [], votes => (votes, [])
  | idx, p :: ps, votes =>
    let tid := fallingTid tids idx
    let isF := checkFalling r p
    let buf := dequeAppend r.falling_window (alistGetD tid votes []) isF.isSome
    let votes1 := alistSet tid buf votes
    let here : List Act :=
      if r.falling_persistence ≤ countTrue buf then
        [("falling",
          match isF with
          | some c => c.conf
          | none => ((11 / 20 : ℚ) : ℝ),
          match isF with
          | some c => c.desc
          | none => "Person appears to have fallen")]
      else []
    let rest := fallingLoop r tids (idx + 1) ps votes1
    (rest.1, here ++ rest.2)

/-- Step 2 of classify: global fighting vote, only entered with at least
two persons. -/
noncomputable def fightingStage (r : ActivityRules) (ps : List PersonPose)
    (votes : List Bool) : List Bool × List Act :=
  if ps.length < 2 then (votes, [])
  else
    let isF := checkFighting r ps
    let votes1 := dequeAppend 8 votes isF.isSome
    let here : List Act :=
      if r.fighting_min_frames ≤ countTrue votes1 then
        [("fighting",
          match isF with
          | some c => c.conf
          | none => ((7 / 10 : ℚ) : ℝ),
          match isF with
          | some c => c.desc
          | none => "Physical altercation detected")]
      else []
    (votes1, here)

/-- Step 3 of classify: per-track running vote over the track map. -/
noncomputable def runningLoop (ts : TrackerState) (r : ActivityRules) (now : ℚ)
    (persons : List PersonPose) :
    Nat → List ((ℚ × ℚ) × Nat) → List (Nat × List Bool) → List (Nat × List Bool) × List Act
  | _, [], votes => (votes, [])
  | idx, e :: restMap, votes =>
    let tid := e.2
    let isR := checkRunning ts r tid now persons idx
    let buf := dequeAppend 10 (alistGetD tid votes []) isR.isSome
    let votes1 := alistSet tid buf votes
    let here : List Act :=
      if r.running_min_frames ≤ countTrue buf then
        [("running",
          match isR with
          | some c => c.conf
          | none => ((3 / 5 : ℚ) : ℝ),
          match isR with
          | some c => c.desc
          | none => "Person running detected")]
      else []
    let rest := runningLoop ts r now persons (idx + 1) restMap votes1
    (rest.1, here ++ rest.2)

/-- Step 4 of classify: loitering candidates over the track map. -/
noncomputable def loiterLoop (ts : TrackerState) (r : ActivityRules) :
    List ((ℚ × ℚ) × Nat) → List Act
  | [] => []
  | e :: restMap =>
    (match checkLoitering ts r e.2 with
     | some c => [("loitering", c.conf, c.desc)]
     | none => []) ++ loiterLoop ts r restMap

/-- Previous-keypoints bookkeeping of classify. -/
def prevLoop (persons : List PersonPose) :
    Nat → List ((ℚ × ℚ) × Nat) → List (Nat × Arr2) → List (Nat × Arr2)
  | _, [], pk => pk
  | idx, e :: restMap, pk =>
    let pk1 :=
      if idx < persons.length then alistSet e.2 (persons.getD idx default).keypoints pk
      else pk
    prevLoop persons (idx + 1) restMap pk1

/-- ActivityClassifier._is_on_cooldown. -/
def isOnCooldown (r : ActivityRules) (cooldowns : List (String × ℚ)) (t : String)
    (now : ℚ) : Bool :=
  decide (now - alistGetD t cooldowns 0 < r.activity_cooldown)

/-- Stable descending insertion by ACTIVITY_PRIORITY, the effect of
Python's stable list.sort with key priority and reverse True. -/
def insertActDesc (a : Act) : List Act → List Act
  | [] => [a]
  | b :: l =>
    if activityPriority a.1 < activityPriority b.1 then b :: insertActDesc a l
    else a :: b :: l

/-- Stable descending sort of the surviving candidates. -/
def sortActsDesc (l : List Act) : List Act :=
  l.foldr insertActDesc []

/-- ActivityClassifier.classify for one frame: early normal return on an
empty pose list, tracker update, the five candidate stages, the global
confidence floor, the cooldown filter, priority arbitration, cooldown
recording for the winner, and the normal fallback. -/
noncomputable def classify (st : ClassifierState) (persons : List PersonPose) (now : ℚ) :
    ClassifierState × ActivityResult :=
  if persons.length = 0 then (st, mkResult "normal" 0 "")
  else
    let centroids := persons.map (fun p => p.mid 11 12)
    let bboxes := persons.map PersonPose.bbox
    let tu := trackerUpdate st.tracker centroids now bboxes
    let ts1 := tu.1
    let trackMap := tu.2
    let ls := lstmStage st persons
    let st0 := ls.1
    let fl := fallingLoop st.rules (trackMap.map Prod.snd) 0 persons st0.falling_votes
    let fg := fightingStage st.rules persons st0.fighting_votes
    let rn := runningLoop ts1 st.rules now persons 0 trackMap st0.running_votes
    let lo := loiterLoop ts1 st.rules trackMap
    let pk := prevLoop persons 0 trackMap st0.prev_keypoints
    let acts := ls.2 ++ fl.2 ++ fg.2 ++ rn.2 ++ lo
    let acts1 := acts.filter
      (fun a => decide (((st.rules.global_confidence_floor : ℚ) : ℝ) ≤ a.2.1))
    let acts2 := acts1.filter (fun a => !isOnCooldown st.rules st0.cooldowns a.1 now)
    let stBase : ClassifierState :=
      { st0 with
        tracker := ts1
        falling_votes := fl.1
        fighting_votes := fg.1
        running_votes := rn.1
        prev_keypoints := pk
        prev_time := now }
    match sortActsDesc acts2 with
    | [] => (stBase, mkResult "normal" 0 "")
    | top :: _ =>
      ({ stBase with cooldowns := alistSet top.1 now stBase.cooldowns },
        mkResult top.1 top.2.1 top.2.2)

/-- The list of candidates of one classify call that survive both the
global confidence floor and the cooldown filter, exactly as classify
builds it before the priority sort (named projection of classify's
pipeline for the arbitration claims). -/
noncomputable def survivingActs (st : ClassifierState) (persons : List PersonPose)
    (now : ℚ) : List Act :=
  let centroids := persons.map (fun p => p.mid 11 12)
  let bboxes := persons.map PersonPose.bbox
  let tu := trackerUpdate st.tracker centroids now bboxes
  let ts1 := tu.1
  let trackMap := tu.2
  let ls := lstmStage st persons
  let st0 := ls.1
  let fl := fallingLoop st.rules (trackMap.map Prod.snd) 0 persons st0.falling_votes
  let fg := fightingStage st.rules persons st0.fighting_votes
  let rn := runningLoop ts1 st.rules now persons 0 trackMap st0.running_votes
  let lo := loiterLoop ts1 st.rules trackMap
  let acts := ls.2 ++ fl.2 ++ fg.2 ++ rn.2 ++ lo
  let acts1 := acts.filter
    (fun a => decide (((st.rules.global_confidence_floor : ℚ) : ℝ) ≤ a.2.1))
  acts1.filter (fun a => !isOnCooldown st.rules st0.cooldowns a.1 now)

/-- One input frame: the detected poses and the frame timestamp. -/
abbrev Frame : Type := List PersonPose × ℚ

/-- State after folding classify over a frame list. -/
noncomputable def runSt (st : ClassifierState) : List Frame → ClassifierState
  | [] => st
  | f :: fs => runSt (classify st f.1 f.2).1 fs

/-- Per-frame results of folding classify over a frame list. -/
noncomputable def runResults (st : ClassifierState) : List Frame → List ActivityResult
  | [] => []
  | f :: fs =>
    let c := classify st f.1 f.2
    c.2 :: runResults c.1 fs

/-! ## Claim-level derived definitions -/

/-- Total number of true votes over all falling buffers of a state. -/
def fallingTrueTotal (votes : List (Nat × List Bool)) : Nat :=
  (votes.map (fun e => countTrue e.2)).sum

/-- Number of poses across a run whose single-frame falling check fires. -/
noncomputable def qualCount (r : ActivityRules) (frames : List Frame) : Nat :=
  (frames.map (fun f => f.1.countP (fun p => (checkFalling r p).isSome))).sum

/-- Modelled from the spec (section 4.1): the average speed over a window
is its total consecutive-sample distance divided by the elapsed time from
first to last sample, in pixels per second.  Stated independently of
get_velocity's loop for the refinement comparison of claim C6. -/
noncomputable def specAvgSpeed (w : List TrackEntry) : ℝ :=
  ((w.zip w.tail).map (fun e => rdist (e.1.1, e.1.2.1) (e.2.1, e.2.2.1))).sum /
    (((w.getLastD default).2.2 - (w.headD default).2.2 : ℚ) : ℝ)

/-! ## Concrete fixtures for witnesses and counterexamples -/

/-- A lying-flat pose: hips and knees at the origin, shoulders 100 px to
the left at the same height, every keypoint confidence 0.9, no bounding
box.  Its torso tilt is arctan of 10^8, just below 90 degrees. -/
def flatPose : PersonPose :=
  ⟨⟨17, 2, fun i j => if (i = 5 ∨ i = 6) ∧ j = 0 then -100 else 0⟩, fun _ => 9 / 10, none⟩

/-- A pose whose keypoint confidences are all 0.1: every rule check that
validates keypoints abstains. -/
def lowPose : PersonPose :=
  ⟨⟨17, 2, fun _ _ => 0⟩, fun _ => 1 / 10, none⟩

/-- A low-confidence pose far from the origin (hips at (1000, 1000)),
used to force a new track while the old one goes stale. -/
def farPose : PersonPose :=
  ⟨⟨17, 2, fun _ _ => 1000⟩, fun _ => 1 / 10, none⟩

/-- A pose whose hip and shoulder keypoints are confident but whose knee
confidences are 0.1, so the falling check abstains while the hip centroid
is still tracked at the origin. -/
def kneeBlindPose : PersonPose :=
  ⟨⟨17, 2, fun _ _ => 0⟩, fun i => if i = 13 ∨ i = 14 then 1 / 10 else 9 / 10, none⟩

/-- Fallen person A of the priority fixture: hips at the origin,
shoulders at (-100, 0), wrists unreliable, wide bounding box. -/
def fightPoseA : PersonPose :=
  ⟨⟨17, 2, fun i j => if (i = 5 ∨ i = 6) ∧ j = 0 then -100 else 0⟩,
   fun i => if i = 9 ∨ i = 10 then 1 / 5 else 9 / 10,
   some (0, 0, 100, 50)⟩

/-- Fallen person B of the priority fixture: hips at (50, 0), shoulders
at (-50, 0), wrists unreliable, the same wide bounding box as A. -/
def fightPoseB : PersonPose :=
  ⟨⟨17, 2, fun i j =>
      if (i = 5 ∨ i = 6) ∧ j = 0 then -50 else if (i = 11 ∨ i = 12) ∧ j = 0 then 50 else 0⟩,
   fun i => if i = 9 ∨ i = 10 then 1 / 5 else 9 / 10,
   some (0, 0, 100, 50)⟩

/-- A 17-row, 2-column keypoint array exactly as PoseDetector.detect
builds PersonPose.keypoints (kps with the confidence column split off). -/
def detectorKps : Arr2 :=
  ⟨17, 2, fun _ _ => 3⟩

/-- The fighting confidence of the C4 pair: min(0.9, 0.6 + IoU * 0.3)
with the IoU of two identical 100 x 50 boxes, 5000/(5000 + 1e-6). -/
def c4FightConf : ℚ :=
  22500000003 / 25000000005

/-- Configuration of claim C3: falling_persistence 3 and falling_window
5, everything else at the reference defaults. -/
def c3rules : ActivityRules :=
  { falling_persistence := 3, falling_window := 5 }

/-- Steady-state track history after n frames of one person standing at
centroid c, sampled at timestamps 5k and bounded by the 150-sample
history cap, built by the tracker's own deque append. -/
def steadySamples (c : ℚ × ℚ) : Nat → List TrackEntry
  | 0 => []
  | n + 1 => dequeAppend 150 (steadySamples c n) (c.1, c.2, 5 * (n : ℚ))

/-- Classifier state after n frames (n at least 1) of the C3 run: one
track at the pose's hip centroid, n capped true falling votes, n capped
false running votes, and the falling cooldown stamped once frame 3
confirmed. -/
def c3state (p : PersonPose) (n : Nat) : ClassifierState :=
  { rules := c3rules
    tracker :=
      { tracks := [(0, steadySamples (p.mid 11 12) n)]
        last_seen := [(0, 5 * ((n : ℚ) - 1))]
        last_bbox := []
        next_id := 1 }
    falling_votes := [(0, List.replicate (min n 5) true)]
    running_votes := [(0, List.replicate (min n 10) false)]
    cooldowns := if 3 ≤ n then [("falling", 5 * ((n : ℚ) - 1))] else []
    prev_keypoints := [(0, p.keypoints)]
    prev_time := 5 * ((n : ℚ) - 1) }

/-- The C3 input stream: the same pose on every frame, frame k at
timestamp 5k (gaps of 5 s, so no confirmation is ever inside the 5 s
cooldown window). -/
def c3framesFrom (p : PersonPose) (j n : Nat) : List Frame :=
  (List.range' j n).map (fun k : Nat => ([p], 5 * (k : ℚ)))

/-- The C3 input stream from frame 0. -/
def c3frames (p : PersonPose) (n : Nat) : List Frame :=
  c3framesFrom p 0 n

/-- Frames of the C1 witness: exactly one falling-shaped frame, then a
normal (low-confidence) one. -/
def c1frames : List Frame :=
  [([flatPose], 0), ([lowPose], 1)]

/-- Frames of the C2 witness: two flat-pose frames six seconds apart,
so the second confirmation falls outside the 5 s cooldown window opened
by the first. -/
def c2frames : List Frame :=
  [([flatPose], 100), ([flatPose], 106)]

/-- Shared tracker fixture: one track, one sample at the origin one
second before the witness frame. -/
def originTracker : TrackerState :=
  { tracks := [(0, [(0, 0, 99)])]
    last_seen := [(0, 99)]
    last_bbox := []
    next_id := 1 }

/-- originTracker after matching the origin centroid at time 100. -/
def originTracker1 : TrackerState :=
  { tracks := [(0, [(0, 0, 99), (0, 0, 100)])]
    last_seen := [(0, 100)]
    last_bbox := []
    next_id := 1 }

/-- originTracker1 after matching the origin centroid again at time
106. -/
def originTracker2 : TrackerState :=
  { tracks := [(0, [(0, 0, 99), (0, 0, 100), (0, 0, 106)])]
    last_seen := [(0, 106)]
    last_bbox := []
    next_id := 1 }

/-- Initial state of the C2 witness run: one fresh track at the origin
and three accumulated falling votes, so the next flat-pose frame
confirms falling immediately. -/
def c2state : ClassifierState :=
  { tracker := originTracker
    falling_votes := [(0, [true, true, true])] }

/-- Classifier state after the first C2 witness frame: the falling
confirmation at time 100 stamped into the cooldown map, the vote buffer
grown to four, and the tracker advanced to time 100. -/
def c2state1 : ClassifierState :=
  { tracker := originTracker1
    falling_votes := [(0, [true, true, true, true])]
    running_votes := [(0, [false])]
    cooldowns := [("falling", 100)]
    prev_keypoints := [(0, flatPose.keypoints)]
    prev_time := 100 }

/-- Initial state of the C4 witness: two tracks near the two fight
poses, three pre-seeded falling votes for track 0 and two pre-seeded
fighting votes, so both candidates confirm on the next frame. -/
def c4state : ClassifierState :=
  { tracker :=
      { tracks := [(0, [(0, 0, 99)]), (1, [(50, 0, 99)])]
        last_seen := [(0, 99), (1, 99)]
        last_bbox := []
        next_id := 2 }
    falling_votes := [(0, [true, true, true])]
    fighting_votes := [true, true] }

/-- Initial state of the C10 witness: one track at the origin and a full
run of four falling votes, so the abstaining frame still meets the
persistence bar. -/
def c10state : ClassifierState :=
  { tracker := originTracker
    falling_votes := [(0, [true, true, true, true])] }

/-- Tracker state after the C4 witness frame: both tracks extended to
the frame timestamp with the frame's bounding boxes recorded. -/
def c4tracker1 : TrackerState :=
  { tracks := [(0, [(0, 0, 99), (0, 0, 100)]), (1, [(50, 0, 99), (50, 0, 100)])]
    last_seen := [(0, 100), (1, 100)]
    last_bbox := [(0, (0, 0, 100, 50)), (1, (0, 0, 100, 50))]
    next_id := 2 }

/-- Frames of the C5 counterexample: one low-confidence pose at the
origin at time 0, then one far-away low-confidence pose at time 10, so
the first track is destroyed as stale while its vote buffers remain. -/
def c5frames : List Frame :=
  [([lowPose], 0), ([farPose], 10)]

/-- Tracker state after the first C5 frame: a single track at the
origin, created at time 0. -/
def c5tracker1 : TrackerState :=
  { tracks := [(0, [(0, 0, 0)])]
    last_seen := [(0, 0)]
    last_bbox := []
    next_id := 1 }

/-- Tracker state after the second C5 frame: track 0 purged as stale,
track 1 newly created at (1000, 1000). -/
def c5tracker2 : TrackerState :=
  { tracks := [(1, [(1000, 1000, 10)])]
    last_seen := [(1, 10)]
    last_bbox := []
    next_id := 2 }

/-- Classifier state after the first C5 frame. -/
def c5state1 : ClassifierState :=
  { tracker := c5tracker1
    falling_votes := [(0, [false])]
    running_votes := [(0, [false])]
    prev_keypoints := [(0, lowPose.keypoints)]
    prev_time := 0 }

/-- Classifier state after the second C5 frame: track 0 is gone from
the tracker but both vote maps still carry its buffers. -/
def c5state2 : ClassifierState :=
  { tracker := c5tracker2
    falling_votes := [(0, [false]), (1, [false])]
    running_votes := [(0, [false]), (1, [false])]
    prev_keypoints := [(0, lowPose.keypoints), (1, farPose.keypoints)]
    prev_time := 10 }

/-- Tracker fixture of claim C6: one track with three samples standing
still at the origin. -/
def c6tracker : TrackerState :=
  { tracks := [(0, [(0, 0, 0), (0, 0, 1), (0, 0, 2)])]
    last_seen := [(0, 2)]
    last_bbox := []
    next_id := 1 }

/-- Tracker fixture for the C6 witness: one track moving from the origin
to (3, 4) over two seconds. -/
def c6moveTracker : TrackerState :=
  { tracks := [(0, [(0, 0, 0), (3, 4, 2)])]
    last_seen := [(0, 2)]
    last_bbox := []
    next_id := 1 }

/-- Tracker fixture for the sub-0.05-second window of claim C6: one
track with two samples a hundredth of a second apart, enough samples for
n_frames = 2 but a window below the 0.05 s guard. -/
def c6fastTracker : TrackerState :=
  { tracks := [(0, [(0, 0, 0), (3, 4, 1 / 100)])]
    last_seen := [(0, 1 / 100)]
    last_bbox := []
    next_id := 1 }

/-! ## Helper lemmas: containers -/

theorem dequeAppend_of_lt {α : Type} {m : Nat} {xs : List α} (x : α)
    (h : xs.length < m) : dequeAppend m xs x = xs ++ [x] := by
  unfold dequeAppend
  have : xs.length + 1 - m = 0 := by omega
  simp [this]

theorem dequeAppend_replicate {α : Type} (m n : Nat) (a : α) :
    dequeAppend m (List.replicate (min n m) a) a = List.replicate (min (n + 1) m) a := by
  rcases lt_or_le n m with h | h
  · rw [min_eq_left h.le, dequeAppend_of_lt a (by simp [h]), min_eq_left (by omega),
      ← List.replicate_succ' n a]
  · rw [min_eq_right h, min_eq_right (by omega)]
    unfold dequeAppend
    rcases Nat.eq_zero_or_pos m with hm | hm
    · subst hm; simp
    · have hlen : (List.replicate m a).length + 1 - m = 1 := by simp
      rw [hlen]
      calc (List.replicate m a ++ [a]).drop 1
          = (List.replicate m a).drop 1 ++ [a] := by
            rw [List.drop_append_of_le_length (by simp; omega)]
        _ = List.replicate (m - 1) a ++ [a] := by rw [List.drop_replicate]
        _ = List.replicate (m - 1 + 1) a := by rw [List.replicate_succ' (m - 1) a]
        _ = List.replicate m a := by congr 1; omega

theorem countTrue_replicate_true (n : Nat) : countTrue (List.replicate n true) = n := by
  simp [countTrue]

theorem countTrue_replicate_false (n : Nat) : countTrue (List.replicate n false) = 0 := by
  simp [countTrue, List.count_replicate]

theorem countTrue_append (xs ys : List Bool) :
    countTrue (xs ++ ys) = countTrue xs + countTrue ys := by
  simp [countTrue]

theorem countTrue_drop_le (k : Nat) (xs : List Bool) :
    countTrue (xs.drop k) ≤ countTrue xs := by
  unfold countTrue List.count
  exact (List.drop_sublist k xs).countP_le _

theorem countTrue_dequeAppend_le (m : Nat) (xs : List Bool) (x : Bool) :
    countTrue (dequeAppend m xs x) ≤ countTrue xs + (if x then 1 else 0) := by
  unfold dequeAppend
  calc countTrue ((xs ++ [x]).drop (xs.length + 1 - m))
      ≤ countTrue (xs ++ [x]) := countTrue_drop_le _ _
    _ = countTrue xs + countTrue [x] := countTrue_append _ _
    _ ≤ countTrue xs + (if x then 1 else 0) := by
        cases x <;> simp [countTrue]

theorem alistGet?_set_self {κ β : Type} [DecidableEq κ] (k : κ) (v : β) (l : List (κ × β)) :
    alistGet? k (alistSet k v l) = some v := by
  induction l with
  | nil => simp [alistSet, alistGet?]
  | cons e l ih =>
    by_cases h : e.1 = k
    · simp [alistSet, h, alistGet?]
    · simp [alistSet, h, alistGet?, ih]

theorem alistGet?_set_ne {κ β : Type} [DecidableEq κ] {k k' : κ} (v : β) (l : List (κ × β))
    (h : k ≠ k') : alistGet? k' (alistSet k v l) = alistGet? k' l := by
  induction l with
  | nil => simp [alistSet, alistGet?, h]
  | cons e l ih =>
    by_cases he : e.1 = k
    · simp [alistSet, he, alistGet?, h]
    · simp [alistSet, he, alistGet?, ih]

theorem alistSet_of_not_mem {κ β : Type} [DecidableEq κ] {k : κ} (v : β) {l : List (κ × β)}
    (h : k ∉ l.map Prod.fst) : alistSet k v l = l ++ [(k, v)] := by
  induction l with
  | nil => simp [alistSet]
  | cons e l ih =>
    simp only [List.map_cons, List.mem_cons] at h
    push_neg at h
    have hne : ¬ e.1 = k := fun hh => h.1 hh.symm
    simp [alistSet, hne, ih h.2]

theorem alistKeys_set_superset {κ β : Type} [DecidableEq κ] (k : κ) (v : β)
    (l : List (κ × β)) {k' : κ} (h : k' ∈ l.map Prod.fst) :
    k' ∈ (alistSet k v l).map Prod.fst := by
  induction l with
  | nil => simp at h
  | cons e l ih =>
    by_cases he : e.1 = k
    · simp only [List.map_cons, List.mem_cons] at h
      rcases h with h | h
      · have : k' = k := by rw [h, he]
        simp [alistSet, he, this]
      · simp [alistSet, he, List.mem_cons, h]
    · simp only [List.map_cons, List.mem_cons] at h
      rcases h with h | h
      · simp [alistSet, he, h]
      · simp [alistSet, he, List.mem_cons, ih h]

theorem fallingTrueTotal_set (k : Nat) (v : List Bool) (l : List (Nat × List Bool)) :
    fallingTrueTotal (alistSet k v l) + countTrue (alistGetD k l []) =
      fallingTrueTotal l + countTrue v := by
  induction l with
  | nil => simp [alistSet, fallingTrueTotal, alistGetD, alistGet?, countTrue]
  | cons e l ih =>
    by_cases h : e.1 = k
    · simp only [alistSet, if_pos h, fallingTrueTotal, List.map_cons, List.sum_cons,
        alistGetD, alistGet?, h]
      simp [fallingTrueTotal] at ih ⊢
      omega
    · simp only [alistSet, if_neg h, fallingTrueTotal, List.map_cons, List.sum_cons,
        alistGetD, alistGet?, h, if_false]
      simp only [fallingTrueTotal, alistGetD] at ih
      omega

theorem countTrue_le_fallingTrueTotal (k : Nat) (l : List (Nat × List Bool)) :
    countTrue (alistGetD k l []) ≤ fallingTrueTotal l := by
  induction l with
  | nil => simp [alistGetD, alistGet?, countTrue]
  | cons e l ih =>
    by_cases h : e.1 = k
    · simp [alistGetD, alistGet?, h, fallingTrueTotal]
    · simp only [alistGetD, alistGet?, h, if_false, fallingTrueTotal, List.map_cons,
        List.sum_cons]
      simp only [alistGetD, fallingTrueTotal] at ih
      omega

theorem pyTakeLast_all {α : Type} (n : Nat) (xs : List α) (p : α → Prop)
    (h : ∀ a ∈ xs, p a) : ∀ a ∈ pyTakeLast n xs, p a := by
  intro a ha
  unfold pyTakeLast at ha
  split at ha
  · exact h a ha
  · exact h a (List.mem_of_mem_drop ha)

/-! ## Helper lemmas: geometry evaluation -/

theorem rdist_self (p : ℚ × ℚ) : rdist p p = 0 := by
  simp [rdist]

theorem rdist_eval (p q : ℚ × ℚ) (d : ℚ) (hd : 0 ≤ d)
    (h : (p.1 - q.1) ^ 2 + (p.2 - q.2) ^ 2 = d ^ 2) : rdist p q = (d : ℝ) := by
  unfold rdist
  rw [h]
  push_cast
  exact Real.sqrt_sq (by exact_mod_cast hd)

theorem rdist_nonneg (p q : ℚ × ℚ) : 0 ≤ rdist p q :=
  Real.sqrt_nonneg _

/-- Key numeric fact for the flat fixtures: the torso angle of the flat
pose (dx 100, dy 0) is strictly between 88.5 and 90 degrees. -/
theorem torsoAngle_flat_gt : (177 / 2 : ℝ) < torsoAngleDeg 100 0 := by
  have h8 : ((|(100 : ℚ)| / (|(0 : ℚ)| + 1 / 1000000) : ℚ) : ℝ) = 100000000 := by
    norm_num
  have hpi := Real.pi_gt_three
  have hpos : (0 : ℝ) < 100000000 := by norm_num
  -- arctan 1e8 = pi/2 - arctan 1e-8
  have hinv : Real.arctan (100000000 : ℝ)⁻¹ = Real.pi / 2 - Real.arctan 100000000 :=
    Real.arctan_inv_of_pos hpos
  have hsmall : Real.arctan ((100000000 : ℝ)⁻¹) < (100000000 : ℝ)⁻¹ := by
    have hy : (0 : ℝ) < Real.arctan ((100000000 : ℝ)⁻¹) := by
      rw [← Real.arctan_zero]
      exact Real.arctan_strictMono (by norm_num)
    have := Real.lt_tan hy (Real.arctan_lt_pi_div_two _)
    rwa [Real.tan_arctan] at this
  have hlb : Real.pi / 2 - (100000000 : ℝ)⁻¹ < Real.arctan 100000000 := by
    have : Real.pi / 2 - Real.arctan 100000000 < (100000000 : ℝ)⁻¹ := by
      rw [← hinv]; exact hsmall
    linarith
  have hmul : (177 / 2 : ℝ) < Real.arctan 100000000 * (180 / Real.pi) := by
    have hpip : (0 : ℝ) < Real.pi := by linarith
    rw [show Real.arctan 100000000 * (180 / Real.pi) =
      Real.arctan 100000000 * 180 / Real.pi by ring, lt_div_iff₀ hpip]
    have h1 : (Real.pi / 2 - (100000000 : ℝ)⁻¹) * 180 < Real.arctan 100000000 * 180 := by
      nlinarith
    have h2 : (177 / 2 : ℝ) * Real.pi < (Real.pi / 2 - (100000000 : ℝ)⁻¹) * 180 := by
      nlinarith
    linarith
  unfold torsoAngleDeg
  rw [h8]
  calc (177 / 2 : ℝ) < Real.arctan 100000000 * (180 / Real.pi) := hmul
    _ ≤ |Real.arctan 100000000 * (180 / Real.pi)| := le_abs_self _

/-! ## Helper lemmas: rule-check evaluation on the fixtures -/

theorem checkFalling_fires (r : ActivityRules) (p : PersonPose)
    (h2 : r.falling_angle = 75) (h3 : r.falling_min_confidence = 1 / 2)
    (hvalid : keypointValid p.confidences [5, 6, 11, 12, 13, 14]
      r.min_keypoint_confidence = true)
    (hdx : (p.mid 11 12).1 - (p.mid 5 6).1 = 100)
    (hdy : (p.mid 11 12).2 - (p.mid 5 6).2 = 0)
    (hbb : p.bbox = none ∨ (p.bbox = some (0, 0, 100, 50) ∧ r.falling_aspect_ratio = 13 / 10)) :
    checkFalling r p = some ⟨9 / 10, "Person appears to have fallen (body angle)"⟩ := by
  have hang := torsoAngle_flat_gt
  simp only [checkFalling, hvalid, hdx, hdy, h2, h3]
  norm_num
  have h75 : (75 : ℝ) < torsoAngleDeg 100 0 := by linarith
  have hc : (9 / 10 : ℝ) ≤ (torsoAngleDeg 100 0 - 75) / 15 := by
    rw [le_div_iff₀ (by norm_num)]
    linarith
  rcases hbb with hbb | ⟨hbb, har⟩ <;>
    rw [hbb] <;>
    [skip; rw [har]] <;>
    norm_num <;>
    rw [if_pos h75, if_neg (not_lt.mpr (le_trans (by norm_num) hc)), min_eq_left hc]

theorem flatPose_valid : keypointValid flatPose.confidences [5, 6, 11, 12, 13, 14]
    (3 / 10) = true := by
  simp only [keypointValid, flatPose, List.all_cons, List.all_nil, Bool.and_eq_true,
    decide_eq_true_eq]
  norm_num

theorem flatPose_hipMid : flatPose.mid 11 12 = ((0 : ℚ), (0 : ℚ)) := by
  simp [PersonPose.mid, PersonPose.kp, flatPose]

theorem flatPose_shoulderMid : flatPose.mid 5 6 = ((-100 : ℚ), (0 : ℚ)) := by
  simp [PersonPose.mid, PersonPose.kp, flatPose]

theorem checkFalling_flatPose :
    checkFalling {} flatPose =
      some ⟨9 / 10, "Person appears to have fallen (body angle)"⟩ := by
  refine checkFalling_fires _ _ rfl rfl flatPose_valid ?_ ?_ (Or.inl rfl) <;>
    rw [flatPose_hipMid, flatPose_shoulderMid] <;> norm_num

theorem checkFalling_flatPose_c3 :
    checkFalling c3rules flatPose =
      some ⟨9 / 10, "Person appears to have fallen (body angle)"⟩ := by
  refine checkFalling_fires _ _ rfl rfl flatPose_valid ?_ ?_ (Or.inl rfl) <;>
    rw [flatPose_hipMid, flatPose_shoulderMid] <;> norm_num

theorem fightPoseA_mids :
    fightPoseA.mid 11 12 = ((0 : ℚ), (0 : ℚ)) ∧
      fightPoseA.mid 5 6 = ((-100 : ℚ), (0 : ℚ)) := by
  constructor <;> simp [PersonPose.mid, PersonPose.kp, fightPoseA]

theorem fightPoseB_mids :
    fightPoseB.mid 11 12 = ((50 : ℚ), (0 : ℚ)) ∧
      fightPoseB.mid 5 6 = ((-50 : ℚ), (0 : ℚ)) := by
  constructor <;> simp [PersonPose.mid, PersonPose.kp, fightPoseB]

theorem checkFalling_fightPoseA :
    checkFalling {} fightPoseA =
      some ⟨9 / 10, "Person appears to have fallen (body angle)"⟩ := by
  refine checkFalling_fires _ _ rfl rfl ?_ ?_ ?_ (Or.inr ⟨rfl, rfl⟩)
  · simp only [keypointValid, fightPoseA, List.all_cons, List.all_nil, Bool.and_eq_true,
      decide_eq_true_eq]
    norm_num
  · rw [fightPoseA_mids.1, fightPoseA_mids.2]; norm_num
  · rw [fightPoseA_mids.1, fightPoseA_mids.2]; norm_num

theorem checkFalling_fightPoseB :
    checkFalling {} fightPoseB =
      some ⟨9 / 10, "Person appears to have fallen (body angle)"⟩ := by
  refine checkFalling_fires _ _ rfl rfl ?_ ?_ ?_ (Or.inr ⟨rfl, rfl⟩)
  · simp only [keypointValid, fightPoseB, List.all_cons, List.all_nil, Bool.and_eq_true,
      decide_eq_true_eq]
    norm_num
  · rw [fightPoseB_mids.1, fightPoseB_mids.2]; norm_num
  · rw [fightPoseB_mids.1, fightPoseB_mids.2]; norm_num

theorem wristClose_fightPair : wristClose {} fightPoseA fightPoseB = false := by
  rw [wristClose, decide_eq_false_iff_not]
  rintro ⟨w, hw, hcase⟩
  simp only [List.mem_cons, List.mem_singleton, List.not_mem_nil, or_false] at hw
  have hA : fightPoseA.confidences w = 1 / 5 := by
    rcases hw with h | h <;> rw [h] <;> norm_num [fightPoseA]
  have hB : fightPoseB.confidences w = 1 / 5 := by
    rcases hw with h | h <;> rw [h] <;> norm_num [fightPoseB]
  rcases hcase with ⟨hc, _⟩ | ⟨hc, _⟩
  · rw [hA] at hc; norm_num at hc
  · rw [hB] at hc; norm_num at hc

theorem iou_c4box : iou (0, 0, 100, 50) (0, 0, 100, 50) = 5000000000 / 5000000001 := by
  simp only [iou]
  norm_num

theorem checkFighting_fightPair :
    checkFighting {} [fightPoseA, fightPoseB] =
      some ⟨((c4FightConf : ℚ) : ℝ), "Physical altercation detected (distance, overlap)"⟩ := by
  have hpair : pairIdxs [fightPoseA, fightPoseB].length = [(0, 1)] := rfl
  have hd : rdist (fightPoseA.mid 11 12) (fightPoseB.mid 11 12) = (50 : ℝ) := by
    rw [fightPoseA_mids.1, fightPoseB_mids.1]
    exact rdist_eval _ _ 50 (by norm_num) (by norm_num)
  have hnear : ¬ ((({} : ActivityRules).fighting_proximity : ℚ) : ℝ) <
      rdist (fightPoseA.mid 11 12) (fightPoseB.mid 11 12) := by
    rw [hd]
    norm_num
  have hbbA : fightPoseA.bbox = some (0, 0, 100, 50) := rfl
  have hbbB : fightPoseB.bbox = some (0, 0, 100, 50) := rfl
  rw [checkFighting, if_neg (by norm_num), hpair, fightLoop]
  simp only [List.getD_cons_zero, List.getD_cons_succ]
  rw [if_neg hnear]
  simp only [hbbA, hbbB, iou_c4box, wristClose_fightPair]
  rw [if_pos (by norm_num)]
  simp only [Bool.false_eq_true, if_false]
  congr 1
  simp only [Candidate.mk.injEq]
  norm_num [c4FightConf]

/-! ## Helper lemmas: deques, steady histories, velocity on constant tracks -/

theorem dequeAppend_length {α : Type} (m : Nat) (xs : List α) (x : α) :
    (dequeAppend m xs x).length = min (xs.length + 1) m := by
  unfold dequeAppend
  simp [List.length_drop]
  omega

theorem dequeAppend_ne_nil {α : Type} {m : Nat} (hm : 1 ≤ m) (xs : List α) (x : α) :
    dequeAppend m xs x ≠ [] := by
  have h := dequeAppend_length m xs x
  intro hc
  rw [hc] at h
  simp at h
  omega

theorem dequeAppend_getLastD {α : Type} {m : Nat} (hm : 1 ≤ m) (xs : List α) (x d : α) :
    (dequeAppend m xs x).getLastD d = x := by
  unfold dequeAppend
  rw [List.drop_append_of_le_length (by simp; omega)]
  induction xs.drop (xs.length + 1 - m) with
  | nil => rfl
  | cons a l ih => cases l <;> simp_all [List.getLastD]

theorem dequeAppend_mem {α : Type} {m : Nat} {xs : List α} {x a : α}
    (h : a ∈ dequeAppend m xs x) : a ∈ xs ∨ a = x := by
  unfold dequeAppend at h
  have := List.mem_of_mem_drop h
  simp at this
  exact this

theorem steadySamples_length (c : ℚ × ℚ) (n : Nat) :
    (steadySamples c n).length = min n 150 := by
  induction n with
  | zero => simp [steadySamples]
  | succ n ih =>
    rw [steadySamples, dequeAppend_length, ih]
    omega

theorem steadySamples_ne_nil (c : ℚ × ℚ) {n : Nat} (hn : 1 ≤ n) :
    steadySamples c n ≠ [] := by
  intro h
  have := steadySamples_length c n
  rw [h] at this
  simp at this
  omega

theorem steadySamples_getLastD (c : ℚ × ℚ) (n : Nat) (d : TrackEntry) :
    (steadySamples c (n + 1)).getLastD d = (c.1, c.2, 5 * (n : ℚ)) := by
  rw [steadySamples, dequeAppend_getLastD (by norm_num)]

theorem steadySamples_const (c : ℚ × ℚ) (n : Nat) :
    ∀ e ∈ steadySamples c n, e.1 = c.1 ∧ e.2.1 = c.2 := by
  induction n with
  | zero => simp [steadySamples]
  | succ n ih =>
    intro e he
    rw [steadySamples] at he
    rcases dequeAppend_mem he with h | h
    · exact ih e h
    · simp [h]

theorem totalDist_const (x y : ℚ) :
    ∀ w : List TrackEntry, (∀ e ∈ w, e.1 = x ∧ e.2.1 = y) → totalDist w = 0 := by
  intro w
  induction w with
  | nil => intro _; rfl
  | cons a l ih =>
    intro h
    cases l with
    | nil => rfl
    | cons b l' =>
      have ha := h a (by simp)
      have hb := h b (by simp)
      have hrest : ∀ e ∈ b :: l', e.1 = x ∧ e.2.1 = y := by
        intro e he
        exact h e (List.mem_cons_of_mem a he)
      show rdist (a.1, a.2.1) (b.1, b.2.1) + totalDist (b :: l') = 0
      rw [ih hrest]
      have : ((a.1 : ℚ), (a.2.1 : ℚ)) = ((b.1 : ℚ), (b.2.1 : ℚ)) := by
        rw [ha.1, ha.2, hb.1, hb.2]
      rw [this, rdist_self]
      ring

theorem getVelocity_const {ts : TrackerState} {tid : Nat} (n : Nat) {x y : ℚ}
    {hist : List TrackEntry} (hh : alistGet? tid ts.tracks = some hist)
    (hc : ∀ e ∈ hist, e.1 = x ∧ e.2.1 = y) :
    getVelocity ts tid n = none ∨ getVelocity ts tid n = some 0 := by
  simp only [getVelocity, hh]
  by_cases h1 : hist = [] ∨ hist.length < max 2 n
  · left
    rw [if_pos h1]
  · rw [if_neg h1]
    by_cases h2 : totalTime (pyTakeLast n hist) < 1 / 20
    · left
      rw [if_pos h2]
    · right
      rw [if_neg h2]
      have hz : totalDist (pyTakeLast n hist) = 0 :=
        totalDist_const x y _ (pyTakeLast_all n hist _ hc)
      simp [hz]

theorem checkRunning_of_const {ts : TrackerState} {r : ActivityRules} {tid : Nat}
    (now : ℚ) (persons : List PersonPose) (personIdx : Nat) {x y : ℚ}
    {hist : List TrackEntry} (hh : alistGet? tid ts.tracks = some hist)
    (hc : ∀ e ∈ hist, e.1 = x ∧ e.2.1 = y) (hrv : 0 ≤ r.running_velocity) :
    checkRunning ts r tid now persons personIdx = none := by
  unfold checkRunning
  rcases getVelocity_const 5 hh hc with h | h
  · rw [h]
  · rw [h]
    have : ¬ ((r.running_velocity : ℚ) : ℝ) < 0 := by
      push_cast
      exact not_lt.mpr (by exact_mod_cast hrv)
    simp [this]

theorem checkRunning_of_none {ts : TrackerState} {r : ActivityRules} {tid : Nat}
    (now : ℚ) (persons : List PersonPose) (personIdx : Nat)
    (h : getVelocity ts tid 5 = none) :
    checkRunning ts r tid now persons personIdx = none := by
  unfold checkRunning
  rw [h]

theorem checkLoitering_short {ts : TrackerState} {r : ActivityRules} {tid : Nat}
    {hist : List TrackEntry} (hh : alistGet? tid ts.tracks = some hist)
    (hlen : hist.length < 10) : checkLoitering ts r tid = none := by
  unfold checkLoitering
  by_cases h1 : getTrackDuration ts tid < r.loiter_duration
  · rw [if_pos h1]
  · rw [if_neg h1]
    simp only [hh]
    rw [if_pos hlen]

theorem loiterLoop_types (ts : TrackerState) (r : ActivityRules) :
    ∀ m : List ((ℚ × ℚ) × Nat), ∀ a ∈ loiterLoop ts r m, a.1 = "loitering" := by
  intro m
  induction m with
  | nil => simp [loiterLoop]
  | cons e rest ih =>
    intro a ha
    rw [loiterLoop] at ha
    rcases List.mem_append.mp ha with h | h
    · rcases hcl : checkLoitering ts r e.2 with _ | c
      · rw [hcl] at h; simp at h
      · rw [hcl] at h
        simp at h
        rw [h]
    · exact ih a h

theorem lstmStage_noModel {st : ClassifierState} (persons : List PersonPose)
    (h : st.lstm_model = none) : lstmStage st persons = (st, []) := by
  unfold lstmStage predictLstm
  rw [h]

/-! ## Helper lemmas: priority sort -/

theorem mem_insertActDesc {a b : Act} : ∀ {l : List Act},
    b ∈ insertActDesc a l ↔ b = a ∨ b ∈ l := by
  intro l
  induction l with
  | nil => simp [insertActDesc]
  | cons e l ih =>
    by_cases h : activityPriority a.1 < activityPriority e.1
    · simp only [insertActDesc, if_pos h, List.mem_cons, ih]
      tauto
    · simp only [insertActDesc, if_neg h, List.mem_cons]

theorem mem_sortActsDesc {b : Act} : ∀ {l : List Act}, b ∈ sortActsDesc l ↔ b ∈ l := by
  intro l
  induction l with
  | nil => simp [sortActsDesc]
  | cons e l ih =>
    show b ∈ insertActDesc e (sortActsDesc l) ↔ _
    rw [mem_insertActDesc]
    simp [ih]

theorem insertActDesc_front {a : Act} {l : List Act}
    (h : ∀ b ∈ l, ¬ activityPriority a.1 < activityPriority b.1) :
    insertActDesc a l = a :: l := by
  cases l with
  | nil => rfl
  | cons e l => simp [insertActDesc, h e (by simp)]

theorem sortActsDesc_pairwise : ∀ l : List Act,
    (sortActsDesc l).Pairwise (fun x y => activityPriority y.1 ≤ activityPriority x.1) := by
  have key : ∀ (a : Act) (l : List Act),
      l.Pairwise (fun x y => activityPriority y.1 ≤ activityPriority x.1) →
      (insertActDesc a l).Pairwise (fun x y => activityPriority y.1 ≤ activityPriority x.1) := by
    intro a l
    induction l with
    | nil => intro _; simp [insertActDesc]
    | cons e l ih =>
      intro hp
      rw [List.pairwise_cons] at hp
      by_cases h : activityPriority a.1 < activityPriority e.1
      · rw [insertActDesc, if_pos h, List.pairwise_cons]
        refine ⟨?_, ih hp.2⟩
        intro b hb
        rcases mem_insertActDesc.mp hb with hb | hb
        · rw [hb]; exact h.le
        · exact hp.1 b hb
      · rw [insertActDesc, if_neg h, List.pairwise_cons]
        refine ⟨?_, List.pairwise_cons.mpr hp⟩
        intro b hb
        rcases List.mem_cons.mp hb with hb | hb
        · rw [hb]; exact not_lt.mp h
        · exact le_trans (hp.1 b hb) (not_lt.mp h)
  intro l
  induction l with
  | nil => simp [sortActsDesc]
  | cons e l ih => exact key e _ ih

theorem sortActsDesc_head_max {l : List Act} {top : Act} {rest : List Act}
    (h : sortActsDesc l = top :: rest) :
    ∀ a ∈ l, activityPriority a.1 ≤ activityPriority top.1 := by
  intro a ha
  have hmem : a ∈ sortActsDesc l := mem_sortActsDesc.mpr ha
  rw [h] at hmem
  rcases List.mem_cons.mp hmem with hh | hh
  · rw [hh]
  · have hp := sortActsDesc_pairwise l
    rw [h, List.pairwise_cons] at hp
    exact hp.1 a hh

theorem sortActsDesc_head_mem {l : List Act} {top : Act} {rest : List Act}
    (h : sortActsDesc l = top :: rest) : top ∈ l := by
  have : top ∈ sortActsDesc l := by rw [h]; simp
  exact mem_sortActsDesc.mp this

/-! ## Helper lemmas: abstention paths -/

theorem checkFalling_of_invalid (r : ActivityRules) (p : PersonPose)
    (h : keypointValid p.confidences [5, 6, 11, 12, 13, 14]
      r.min_keypoint_confidence = false) : checkFalling r p = none := by
  simp [checkFalling, h]

theorem lowPose_invalid : keypointValid lowPose.confidences [5, 6, 11, 12, 13, 14]
    (3 / 10) = false := by
  simp only [keypointValid, lowPose, List.all_cons, List.all_nil, Bool.and_eq_true,
    decide_eq_true_eq, Bool.and_eq_false_imp]
  norm_num

theorem farPose_invalid : keypointValid farPose.confidences [5, 6, 11, 12, 13, 14]
    (3 / 10) = false := by
  simp only [keypointValid, farPose, List.all_cons, List.all_nil]
  norm_num

theorem kneeBlindPose_invalid : keypointValid kneeBlindPose.confidences
    [5, 6, 11, 12, 13, 14] (3 / 10) = false := by
  simp only [keypointValid, kneeBlindPose, List.all_cons, List.all_nil]
  norm_num

theorem getVelocity_unknown {ts : TrackerState} {tid : Nat} (n : Nat)
    (h : alistGet? tid ts.tracks = none) : getVelocity ts tid n = none := by
  simp [getVelocity, h]

theorem checkLoitering_unknown {ts : TrackerState} (r : ActivityRules) {tid : Nat}
    (h : alistGet? tid ts.tracks = none) : checkLoitering ts r tid = none := by
  unfold checkLoitering
  by_cases h1 : getTrackDuration ts tid < r.loiter_duration
  · rw [if_pos h1]
  · rw [if_neg h1]
    simp only [h]

theorem checkFighting_short (r : ActivityRules) (ps : List PersonPose)
    (h : ps.length < 2) : checkFighting r ps = none := by
  simp [checkFighting, h]

theorem totalDist_eq_spec : ∀ w : List TrackEntry,
    totalDist w = ((w.zip w.tail).map (fun e => rdist (e.1.1, e.1.2.1) (e.2.1, e.2.2.1))).sum := by
  intro w
  induction w with
  | nil => simp [totalDist]
  | cons a l ih =>
    cases l with
    | nil => simp [totalDist]
    | cons b l' =>
      show rdist (a.1, a.2.1) (b.1, b.2.1) + totalDist (b :: l') = _
      rw [ih]
      simp

theorem totalTime_eq : ∀ w : List TrackEntry,
    totalTime w = (w.getLastD default).2.2 - (w.headD default).2.2 := by
  intro w
  induction w with
  | nil => simp [totalTime]
  | cons a l ih =>
    cases l with
    | nil => simp [totalTime, List.getLastD]
    | cons b l' =>
      show (b.2.2 - a.2.2) + totalTime (b :: l') = _
      rw [ih]
      have : ((a :: b :: l').getLastD default) = ((b :: l').getLastD default) := by
        simp [List.getLastD]
      rw [this]
      simp only [List.headD_cons]
      ring

/-! ## Claim C8 -/

/-- Claim C8 (code_bug evidence): every keypoint array of the shape the
detector actually produces, 17 rows and 2 columns (coordinates split
from confidences), is normalised by _normalise_keypoints_for_lstm to the
identically-zero 51-vector, because the shape guard kps.shape 1 < 3
fires; the hip-centred, shoulder-scaled vector of the claim is never
produced, so the buffered vector is identically zero for every pose. -/
theorem C8_normalise_zero_on_detector_shape (kps : Arr2) (hr : kps.rows = 17) (hc : kps.cols = 2) :
    normaliseKeypointsForLstm kps = List.replicate 51 0 := by
  unfold normaliseKeypointsForLstm
  rw [if_pos]
  right
  omega

/-- Witness for C8 at a concrete detector-shaped array. -/
theorem C8_normalise_zero_witness :
    detectorKps.rows = 17 ∧ detectorKps.cols = 2 ∧
      normaliseKeypointsForLstm detectorKps = List.replicate 51 0 :=
  ⟨rfl, rfl, C8_normalise_zero_on_detector_shape detectorKps rfl rfl⟩

/-! ## Claim C6 -/

/-- Claim C6 (counterexample): the claim says get_velocity returns
"unavailable" exactly when fewer than 2 samples exist.  First, a track
with 3 samples (at least 2) queried with the default n_frames 5 still
yields None, because the guard requires max(2, n_frames) samples.
Second, a track with 2 samples (enough for n_frames 2) whose window
spans only 0.01 s also yields None, through the 0.05 s minimum-window
guard, where the claim promises an average speed. -/
theorem C6_counterexample :
    (getVelocity c6tracker 0 5 = none ∧
      alistGet? 0 c6tracker.tracks = some [(0, 0, 0), (0, 0, 1), (0, 0, 2)] ∧
      2 ≤ ([((0 : ℚ), (0 : ℚ), (0 : ℚ)), (0, 0, 1), (0, 0, 2)] : List TrackEntry).length) ∧
    (getVelocity c6fastTracker 0 2 = none ∧
      alistGet? 0 c6fastTracker.tracks = some [(0, 0, 0), (3, 4, 1 / 100)] ∧
      2 ≤ ([((0 : ℚ), (0 : ℚ), (0 : ℚ)), (3, 4, 1 / 100)] : List TrackEntry).length) := by
  refine ⟨⟨?_, by simp [c6tracker, alistGet?], by simp⟩,
    ⟨?_, by simp [c6fastTracker, alistGet?], by simp⟩⟩
  · simp only [getVelocity, c6tracker, alistGet?, if_pos]
    norm_num
  · simp only [getVelocity, c6fastTracker, alistGet?, if_pos]
    rw [if_neg (by push_neg; exact ⟨by simp, by norm_num⟩),
      if_pos (by simp only [pyTakeLast, totalTime]; norm_num)]

/-- Claim C6 (amended): get_velocity returns None exactly when the track
is unknown, has fewer than max(2, n_frames) samples, or its sampled
window spans less than 0.05 s; otherwise it returns the spec's average
speed (total inter-sample distance over elapsed time) of the last
n_frames samples.  Unknown ids flow through the same None path, never an
exception. -/
theorem C6_getVelocity_contract (ts : TrackerState) (tid n : Nat) :
    (alistGet? tid ts.tracks = none → getVelocity ts tid n = none) ∧
    (∀ hist, alistGet? tid ts.tracks = some hist → hist.length < max 2 n →
      getVelocity ts tid n = none) ∧
    (∀ hist, alistGet? tid ts.tracks = some hist → max 2 n ≤ hist.length →
      totalTime (pyTakeLast n hist) < 1 / 20 →
      getVelocity ts tid n = none) ∧
    (∀ hist, alistGet? tid ts.tracks = some hist → max 2 n ≤ hist.length →
      ¬ totalTime (pyTakeLast n hist) < 1 / 20 →
      getVelocity ts tid n = some (specAvgSpeed (pyTakeLast n hist))) := by
  have hcond : ∀ hist : List TrackEntry, max 2 n ≤ hist.length →
      ¬ (hist = [] ∨ hist.length < max 2 n) := by
    intro hist hlen
    push_neg
    refine ⟨?_, by omega⟩
    intro hnil
    rw [hnil] at hlen
    simp at hlen
  refine ⟨fun h => getVelocity_unknown n h, ?_, ?_, ?_⟩
  · intro hist hh hlen
    simp only [getVelocity, hh]
    rw [if_pos (Or.inr hlen)]
  · intro hist hh hlen htime
    simp only [getVelocity, hh]
    rw [if_neg (hcond hist hlen), if_pos htime]
  · intro hist hh hlen htime
    simp only [getVelocity, hh]
    rw [if_neg (hcond hist hlen), if_neg htime]
    congr 1
    rw [specAvgSpeed, totalDist_eq_spec, totalTime_eq]

/-- Witness for C6: a two-sample moving track returns the spec average
of 5 px over 2 s, and a two-sample track spanning only 0.01 s returns
None through the sub-0.05 s window guard. -/
theorem C6_getVelocity_contract_witness :
    getVelocity c6moveTracker 0 2 =
      some (specAvgSpeed (pyTakeLast 2 [(0, 0, 0), (3, 4, 2)])) ∧
      specAvgSpeed (pyTakeLast 2 [((0 : ℚ), (0 : ℚ), (0 : ℚ)), (3, 4, 2)]) = 5 / 2 ∧
      getVelocity c6fastTracker 0 2 = none := by
  refine ⟨?_, ?_, ?_⟩
  · refine (C6_getVelocity_contract c6moveTracker 0 2).2.2.2 [(0, 0, 0), (3, 4, 2)]
      (by simp [c6moveTracker, alistGet?]) (by simp) ?_
    simp only [pyTakeLast, totalTime]
    norm_num
  · have h5 : rdist (0 : ℚ × ℚ) ((3 : ℚ), (4 : ℚ)) = (5 : ℝ) := by
      apply rdist_eval _ _ 5 (by norm_num)
      norm_num
    simp only [pyTakeLast, specAvgSpeed]
    norm_num [h5]
  · refine (C6_getVelocity_contract c6fastTracker 0 2).2.2.1 [(0, 0, 0), (3, 4, 1 / 100)]
      (by simp [c6fastTracker, alistGet?]) (by simp) ?_
    simp only [pyTakeLast, totalTime]
    norm_num

/-! ## Claim C7 -/

/-- Claim C7 (counterexample): two detections with the same centroid are
matched to two fresh tracks, but the returned mapping is keyed by the
centroid, so it holds a single entry (the second detection's track id 1)
rather than one entry per detection. -/
theorem C7_counterexample :
    (trackerUpdate {} [((0 : ℚ), (0 : ℚ)), (0, 0)] 0 [none, none]).2 =
      [(((0 : ℚ), (0 : ℚ)), 1)] ∧
    (trackerUpdate {} [((0 : ℚ), (0 : ℚ)), (0, 0)] 0 [none, none]).2.length ≠
      [((0 : ℚ), (0 : ℚ)), (0, 0)].length := by
  have h : (trackerUpdate {} [((0 : ℚ), (0 : ℚ)), (0, 0)] 0 [none, none]).2 =
      [(((0 : ℚ), (0 : ℚ)), 1)] := by
    simp only [trackerUpdate, trackerLoop, trackerStep, bestMatch]
    norm_num [alistGetD, alistGet?, alistSet, dequeAppend]
  exact ⟨h, by rw [h]; simp⟩

theorem trackerStep_matched_keys (ts : TrackerState) (used : List Nat)
    (m : List ((ℚ × ℚ) × Nat)) (c : ℚ × ℚ) (bbox : Option (ℚ × ℚ × ℚ × ℚ)) (t : ℚ)
    (h : c ∉ m.map Prod.fst) :
    (trackerStep ts used m c bbox t).2.2.map Prod.fst = m.map Prod.fst ++ [c] := by
  simp only [trackerStep]
  rw [Prod.mk.eta, alistSet_of_not_mem _ h]
  simp

theorem trackerLoop_keys (t : ℚ) : ∀ (cs : List (ℚ × ℚ))
    (bbs : List (Option (ℚ × ℚ × ℚ × ℚ))) (ts : TrackerState) (used : List Nat)
    (m : List ((ℚ × ℚ) × Nat)), (m.map Prod.fst ++ cs).Nodup →
    (trackerLoop t ts used m cs bbs).2.map Prod.fst = m.map Prod.fst ++ cs := by
  intro cs
  induction cs with
  | nil =>
    intro bbs ts used m h
    simp [trackerLoop]
  | cons c cs ih =>
    intro bbs ts used m h
    have hkey : c ∉ m.map Prod.fst := by
      intro hc
      rcases List.nodup_append.mp h with ⟨_, _, hdisj⟩
      exact hdisj hc (by simp)
    have hkeys := trackerStep_matched_keys ts used m c (bbs.headD none) t hkey
    simp only [trackerLoop]
    rw [ih bbs.tail _ _ _ (by rw [hkeys, List.append_assoc, List.singleton_append]; exact h),
      hkeys, List.append_assoc, List.singleton_append]

/-- Claim C7 (amended): update's returned mapping is keyed by the
centroid, not by the detection index; whenever the frame's centroids are
pairwise distinct it holds exactly one entry per detection, in detection
order, while duplicated centroids collapse onto a single entry. -/
theorem C7_update_keyed_by_centroid (ts : TrackerState) (cs : List (ℚ × ℚ)) (t : ℚ)
    (bbs : List (Option (ℚ × ℚ × ℚ × ℚ))) (h : cs.Nodup) :
    (trackerUpdate ts cs t bbs).2.map Prod.fst = cs := by
  unfold trackerUpdate
  exact trackerLoop_keys t cs bbs ts [] [] (by simpa using h)

/-- Witness for the amended C7 at two distinct centroids. -/
theorem C7_update_keyed_witness :
    (trackerUpdate {} [((0 : ℚ), (0 : ℚ)), (200, 0)] 0 [none, none]).2.map Prod.fst =
      [((0 : ℚ), (0 : ℚ)), (200, 0)] :=
  C7_update_keyed_by_centroid {} _ 0 _ (by norm_num [List.nodup_cons, Prod.ext_iff])

/-! ## Claim C9 -/

theorem round2_zero : round2 0 = 0 := by
  unfold round2
  norm_num

theorem mkResult_normal_zero :
    mkResult "normal" 0 "" = ⟨"normal", false, "low", 0, ""⟩ := by
  unfold mkResult activityIsAbnormal activitySeverity
  rw [round2_zero]
  simp

/-- Claim C9: classify on an empty pose list returns the normal result
with confidence 0 and is_abnormal false without touching the state, and
each rule check abstains (returns None) instead of raising: falling on
keypoints below the minimum confidence, fighting on fewer than two
persons, running and loitering on a track id the tracker does not know.
All embedded operations are total, so no path raises. -/
theorem C9_malformed_input_abstains (st : ClassifierState) (now : ℚ)
    (r : ActivityRules) (p : PersonPose)
    (hp : keypointValid p.confidences [5, 6, 11, 12, 13, 14]
      r.min_keypoint_confidence = false)
    (ps : List PersonPose) (hps : ps.length < 2)
    (ts : TrackerState) (tid : Nat) (hug : alistGet? tid ts.tracks = none)
    (now2 : ℚ) (persons2 : List PersonPose) (i : Nat) :
    classify st [] now = (st, ⟨"normal", false, "low", 0, ""⟩) ∧
    checkFalling r p = none ∧
    checkFighting r ps = none ∧
    checkRunning ts r tid now2 persons2 i = none ∧
    checkLoitering ts r tid = none := by
  refine ⟨?_, checkFalling_of_invalid r p hp, checkFighting_short r ps hps,
    checkRunning_of_none now2 persons2 i (getVelocity_unknown 5 hug),
    checkLoitering_unknown r hug⟩
  unfold classify
  simp [mkResult_normal_zero]

theorem trackerUpdate_c4 :
    trackerUpdate c4state.tracker [((0 : ℚ), (0 : ℚ)), ((50 : ℚ), (0 : ℚ))] 100
      [some (0, 0, 100, 50), some (0, 0, 100, 50)] =
      (c4tracker1, [(((0 : ℚ), (0 : ℚ)), 0), (((50 : ℚ), (0 : ℚ)), 1)]) := by
  unfold c4tracker1
  have hd0 : rdist (0 : ℚ × ℚ) (0 : ℚ × ℚ) = 0 := rdist_self _
  have hd1 : rdist (0 : ℚ × ℚ) ((50 : ℚ), (0 : ℚ)) = (50 : ℝ) :=
    rdist_eval _ _ 50 (by norm_num) (by norm_num)
  have hd2 : rdist ((50 : ℚ), (0 : ℚ)) ((50 : ℚ), (0 : ℚ)) = 0 := rdist_self _
  norm_num [trackerUpdate, trackerLoop, trackerStep, bestMatch, purgeStale, c4state,
    alistGetD, alistGet?, alistSet, dequeAppend, hd0, hd1, hd2, Prod.ext_iff]

/-! ## Helper lemmas: classify structure -/

theorem fightingStage_types (r : ActivityRules) (ps : List PersonPose) (v : List Bool) :
    ∀ a ∈ (fightingStage r ps v).2, a.1 = "fighting" := by
  simp only [fightingStage]
  by_cases h : ps.length < 2
  · rw [if_pos h]
    simp
  · rw [if_neg h]
    by_cases h2 : r.fighting_min_frames ≤ countTrue (dequeAppend 8 v (checkFighting r ps).isSome)
    · rw [if_pos h2]
      intro a ha
      simp at ha
      rw [ha]
    · rw [if_neg h2]
      simp

theorem runningLoop_types (ts : TrackerState) (r : ActivityRules) (now : ℚ)
    (persons : List PersonPose) : ∀ (idx : Nat) (m : List ((ℚ × ℚ) × Nat))
    (votes : List (Nat × List Bool)), ∀ a ∈ (runningLoop ts r now persons idx m votes).2,
    a.1 = "running" := by
  intro idx m
  induction m generalizing idx with
  | nil =>
    intro votes a ha
    simp [runningLoop] at ha
  | cons e rest ih =>
    intro votes a ha
    rw [runningLoop] at ha
    rcases List.mem_append.mp ha with h | h
    · by_cases h2 : r.running_min_frames ≤ countTrue (dequeAppend 10
        (alistGetD e.2 votes []) (checkRunning ts r e.2 now persons idx).isSome)
      · rw [if_pos h2] at h
        simp at h
        rw [h]
      · rw [if_neg h2] at h
        simp at h
    · exact ih (idx + 1) _ a h

theorem fallingLoop_types (r : ActivityRules) (tids : List Nat) :
    ∀ (ps : List PersonPose) (idx : Nat) (votes : List (Nat × List Bool)),
    ∀ a ∈ (fallingLoop r tids idx ps votes).2, a.1 = "falling" := by
  intro ps
  induction ps with
  | nil =>
    intro idx votes a ha
    simp [fallingLoop] at ha
  | cons p ps ih =>
    intro idx votes a ha
    rw [fallingLoop] at ha
    rcases List.mem_append.mp ha with h | h
    · by_cases h2 : r.falling_persistence ≤ countTrue (dequeAppend r.falling_window
        (alistGetD (fallingTid tids idx) votes []) (checkFalling r p).isSome)
      · rw [if_pos h2] at h
        simp at h
        rw [h]
      · rw [if_neg h2] at h
        simp at h
    · exact ih (idx + 1) _ a h

theorem mkResult_type (t : String) (c : ℝ) (d : String) : (mkResult t c d).type = t :=
  rfl

/-- classify's result is the priority arbitration over the surviving
candidates (the normal fallback when none survive). -/
theorem classify_result_eq (st : ClassifierState) (persons : List PersonPose) (now : ℚ)
    (hne : persons.length ≠ 0) :
    (classify st persons now).2 =
      match sortActsDesc (survivingActs st persons now) with
      | [] => mkResult "normal" 0 ""
      | top :: _ => mkResult top.1 top.2.1 top.2.2 := by
  simp only [classify, survivingActs, if_neg hne]
  split
  · rename_i heq
    rw [heq]
  · rename_i top rest heq
    rw [heq]

end SurveillX

namespace SurveillX

theorem trackerUpdate_origin :
    trackerUpdate originTracker [(0 : ℚ × ℚ)] 100 [none] =
      (originTracker1, [((0 : ℚ × ℚ), 0)]) := by
  unfold originTracker originTracker1
  norm_num [trackerUpdate, trackerLoop, trackerStep, bestMatch, purgeStale, alistGetD,
    alistGet?, alistSet, dequeAppend, rdist_self]

/-- General evaluation of classify for one tracked person at the origin
fixture whose falling buffer, after this frame's vote, still meets the
default persistence bar of 4: the frame emits a falling result whose
confidence and description come from the frame's own check when it
fires, and are the 0.55 defaults when it abstains. -/
theorem sortActsDesc_singleton (a : Act) : sortActsDesc [a] = [a] :=
  rfl

theorem classify_origin_falling (B : List Bool) (p : PersonPose) (o : Option Candidate)
    (ho : checkFalling {} p = o)
    (hmid : p.mid 11 12 = ((0 : ℚ), (0 : ℚ)))
    (hbb : p.bbox = none)
    (hsum : 4 ≤ countTrue (dequeAppend 8 B o.isSome))
    (hconf : ((9 / 20 : ℚ) : ℝ) ≤ o.elim ((11 / 20 : ℚ) : ℝ) Candidate.conf) :
    (classify { tracker := originTracker, falling_votes := [(0, B)] } [p] 100).2 =
      mkResult "falling" (o.elim ((11 / 20 : ℚ) : ℝ) Candidate.conf)
        (o.elim "Person appears to have fallen" Candidate.desc) := by
  have hmap : [p].map (fun q => q.mid 11 12) = [(0 : ℚ × ℚ)] := by
    simp [hmid, Prod.mk_zero_zero]
  have hbbs : [p].map PersonPose.bbox = [none] := by simp [hbb]
  have htr := trackerUpdate_origin
  have hst : ({ tracker := originTracker, falling_votes := [(0, B)] } :
      ClassifierState).lstm_model = none := rfl
  have hls := lstmStage_noModel [p] hst
  have hv0 : getVelocity originTracker1 0 5 = none := by
    simp [getVelocity, alistGet?, originTracker1]
  have hr0 := @checkRunning_of_none originTracker1 {} 0 100 [p] 0 hv0
  have hlo0 : checkLoitering originTracker1 {} 0 = none := by
    norm_num [checkLoitering, getTrackDuration, alistGet?, originTracker1]
  have h_fg : fightingStage ({} : ActivityRules) [p] [] = ([], []) := by
    simp [fightingStage]
  have h_rn : runningLoop originTracker1 {} 100 [p] 0 [((0 : ℚ × ℚ), 0)] [] =
      ([(0, [false])], []) := by
    simp only [runningLoop, hr0, Option.isSome_none]
    norm_num [alistGetD, alistGet?, alistSet, dequeAppend, countTrue]
  have h_lo : loiterLoop originTracker1 {} [((0 : ℚ × ℚ), 0)] = [] := by
    simp only [loiterLoop, hlo0]
    simp [loiterLoop]
  have hcool : isOnCooldown {} [] "falling" 100 = false := by
    norm_num [isOnCooldown, alistGetD, alistGet?]
  rcases o with _ | c
  · simp only [Option.isSome_none] at hsum
    simp only [Option.elim] at hconf ⊢
    have h_fl : fallingLoop {} [0] 0 [p] [(0, B)] =
        ([(0, dequeAppend 8 B false)],
          [("falling", ((11 / 20 : ℚ) : ℝ), "Person appears to have fallen")]) := by
      simp only [fallingLoop, ho, Option.isSome_none]
      norm_num [fallingTid, alistGetD, alistGet?, alistSet, hsum]
    have hfloor : (decide (((9 / 20 : ℚ) : ℝ) ≤ ((11 / 20 : ℚ) : ℝ))) = true :=
      decide_eq_true hconf
    have hsv : survivingActs { tracker := originTracker, falling_votes := [(0, B)] } [p] 100 =
        [("falling", ((11 / 20 : ℚ) : ℝ), "Person appears to have fallen")] := by
      simp only [survivingActs, hmap, hbbs, htr, hls, h_fg]
      simp only [List.map_cons, List.map_nil, h_fl, h_rn, h_lo, List.append_nil,
        List.nil_append, List.filter_cons, List.filter_nil, hfloor, hcool, Bool.not_false,
        if_true]
    rw [classify_result_eq _ _ _ (by simp), hsv, sortActsDesc_singleton]
  · simp only [Option.isSome_some] at hsum
    simp only [Option.elim] at hconf ⊢
    have h_fl : fallingLoop {} [0] 0 [p] [(0, B)] =
        ([(0, dequeAppend 8 B true)], [("falling", c.conf, c.desc)]) := by
      simp only [fallingLoop, ho, Option.isSome_some]
      norm_num [fallingTid, alistGetD, alistGet?, alistSet, hsum]
    have hfloor : (decide (((9 / 20 : ℚ) : ℝ) ≤ c.conf)) = true :=
      decide_eq_true hconf
    have hsv : survivingActs { tracker := originTracker, falling_votes := [(0, B)] } [p] 100 =
        [("falling", c.conf, c.desc)] := by
      simp only [survivingActs, hmap, hbbs, htr, hls, h_fg]
      simp only [List.map_cons, List.map_nil, h_fl, h_rn, h_lo, List.append_nil,
        List.nil_append, List.filter_cons, List.filter_nil, hfloor, hcool, Bool.not_false,
        if_true]
    rw [classify_result_eq _ _ _ (by simp), hsv, sortActsDesc_singleton]

/-! ## Claim C4 -/

theorem survivingActs_c4 :
    survivingActs c4state [fightPoseA, fightPoseB] 100 =
      [("falling", (9 / 10 : ℝ), "Person appears to have fallen (body angle)"),
       ("fighting", ((c4FightConf : ℚ) : ℝ),
         "Physical altercation detected (distance, overlap)")] := by
  have hmap : [fightPoseA, fightPoseB].map (fun p => p.mid 11 12) =
      [((0 : ℚ), (0 : ℚ)), ((50 : ℚ), (0 : ℚ))] := by
    simp [fightPoseA_mids.1, fightPoseB_mids.1]
  have hbbs : [fightPoseA, fightPoseB].map PersonPose.bbox =
      [some ((0 : ℚ), (0 : ℚ), (100 : ℚ), (50 : ℚ)), some (0, 0, 100, 50)] := rfl
  have htr := trackerUpdate_c4
  simp only [Prod.mk_zero_zero] at htr hmap
  have hls : lstmStage c4state [fightPoseA, fightPoseB] = (c4state, []) :=
    lstmStage_noModel _ rfl
  have hfv : c4state.falling_votes = [(0, [true, true, true])] := rfl
  have hgv : c4state.fighting_votes = [true, true] := rfl
  have hrv : c4state.running_votes = ([] : List (Nat × List Bool)) := rfl
  have hcd : c4state.cooldowns = ([] : List (String × ℚ)) := rfl
  have hrules : c4state.rules = ({} : ActivityRules) := rfl
  have hv0 : getVelocity c4tracker1 0 5 = none := by
    simp [getVelocity, alistGet?, c4tracker1]
  have hv1 : getVelocity c4tracker1 1 5 = none := by
    simp [getVelocity, alistGet?, c4tracker1]
  have hr0 := @checkRunning_of_none c4tracker1 {} 0 100 [fightPoseA, fightPoseB] 0 hv0
  have hr1 := @checkRunning_of_none c4tracker1 {} 1 100 [fightPoseA, fightPoseB] 1 hv1
  have hlo0 : checkLoitering c4tracker1 {} 0 = none := by
    norm_num [checkLoitering, getTrackDuration, alistGet?, c4tracker1]
  have hlo1 : checkLoitering c4tracker1 {} 1 = none := by
    norm_num [checkLoitering, getTrackDuration, alistGet?, c4tracker1]
  norm_num [survivingActs, hmap, hbbs, htr, hls, hfv, hgv, hrv, hcd, hrules, fallingLoop,
    fightingStage, runningLoop, loiterLoop, fallingTid, checkFalling_fightPoseA,
    checkFalling_fightPoseB, checkFighting_fightPair, hr0, hr1, hlo0, hlo1, alistGetD,
    alistGet?, alistSet, dequeAppend, countTrue, List.count_cons, List.count_nil,
    isOnCooldown, List.filter_cons, decide_eq_true_eq, c4FightConf]

theorem activityPriority_ge_four {t : String} (h : 4 ≤ activityPriority t) :
    t = "fighting" := by
  by_cases h1 : t = "fighting"
  · exact h1
  · exfalso
    simp only [activityPriority, if_neg h1] at h
    split_ifs at h <;> omega

/-- Claim C4: whenever both a fighting and a falling candidate survive
confirmation, the confidence floor and the cooldown filter in one frame,
classify emits the fighting result; in general the emitted type
maximises the fixed priority rank (fighting 4, falling 3, running 2,
loitering 1) over all surviving candidates. -/
theorem C4_priority_ordering (st : ClassifierState) (persons : List PersonPose) (now : ℚ)
    (hne : persons.length ≠ 0) :
    (∀ a ∈ survivingActs st persons now,
      activityPriority a.1 ≤ activityPriority (classify st persons now).2.type) ∧
    ((∃ c d, ("fighting", c, d) ∈ survivingActs st persons now) →
      (∃ c' d', ("falling", c', d') ∈ survivingActs st persons now) →
      (classify st persons now).2.type = "fighting") := by
  have hres := classify_result_eq st persons now hne
  have hmax : ∀ a ∈ survivingActs st persons now,
      activityPriority a.1 ≤ activityPriority (classify st persons now).2.type := by
    intro a ha
    rcases hs : sortActsDesc (survivingActs st persons now) with _ | ⟨top, rest⟩
    · exfalso
      have hmem := mem_sortActsDesc.mpr ha
      rw [hs] at hmem
      simp at hmem
    · rw [hres, hs, mkResult_type]
      exact sortActsDesc_head_max hs a ha
  refine ⟨hmax, ?_⟩
  rintro ⟨c, d, hfight⟩ ⟨c', d', hfall⟩
  have h4 := hmax _ hfight
  exact activityPriority_ge_four (by simpa [activityPriority] using h4)

/-- Witness for C4: at the pre-seeded two-person state both a fighting
and a falling candidate survive every filter, and classify emits the
fighting result. -/
theorem C4_priority_witness :
    ("fighting", ((c4FightConf : ℚ) : ℝ), "Physical altercation detected (distance, overlap)")
        ∈ survivingActs c4state [fightPoseA, fightPoseB] 100 ∧
    ("falling", (9 / 10 : ℝ), "Person appears to have fallen (body angle)")
        ∈ survivingActs c4state [fightPoseA, fightPoseB] 100 ∧
    (classify c4state [fightPoseA, fightPoseB] 100).2.type = "fighting" := by
  have h1 : ("fighting", ((c4FightConf : ℚ) : ℝ),
      "Physical altercation detected (distance, overlap)")
      ∈ survivingActs c4state [fightPoseA, fightPoseB] 100 := by
    rw [survivingActs_c4]
    simp
  have h2 : ("falling", (9 / 10 : ℝ), "Person appears to have fallen (body angle)")
      ∈ survivingActs c4state [fightPoseA, fightPoseB] 100 := by
    rw [survivingActs_c4]
    simp
  exact ⟨h1, h2,
    (C4_priority_ordering c4state [fightPoseA, fightPoseB] 100 (by norm_num)).2
      ⟨_, _, h1⟩ ⟨_, _, h2⟩⟩

end SurveillX

namespace SurveillX

/-! ## Claim C10 -/

/-- Claim C10: on a frame whose own falling check abstains (returns no
candidate) for a tracked person, while the track's falling vote buffer
after this frame's vote still meets the default persistence bar of 4,
classify emits a falling result with the fixed default confidence 0.55
and the generic description, although the frame's pose did not qualify
as falling. -/
theorem C10_default_falling_candidate (B : List Bool) (p : PersonPose)
    (ho : checkFalling {} p = none)
    (hmid : p.mid 11 12 = ((0 : ℚ), (0 : ℚ)))
    (hbb : p.bbox = none)
    (hsum : 4 ≤ countTrue (dequeAppend 8 B false)) :
    (classify { tracker := originTracker, falling_votes := [(0, B)] } [p] 100).2 =
      mkResult "falling" ((11 / 20 : ℚ) : ℝ) "Person appears to have fallen" := by
  have h := classify_origin_falling B p none ho hmid hbb
    (by simpa using hsum) (by norm_num)
  simpa using h

/-- Witness for C10: the knee-blind pose at the origin abstains from the
falling check, yet with four accumulated votes classify still emits the
0.55-confidence falling result. -/
theorem C10_default_falling_witness :
    checkFalling {} kneeBlindPose = none ∧
      (classify c10state [kneeBlindPose] 100).2 =
        mkResult "falling" ((11 / 20 : ℚ) : ℝ) "Person appears to have fallen" := by
  have ho : checkFalling {} kneeBlindPose = none :=
    checkFalling_of_invalid {} kneeBlindPose kneeBlindPose_invalid
  have hmid : kneeBlindPose.mid 11 12 = ((0 : ℚ), (0 : ℚ)) := by
    simp [PersonPose.mid, PersonPose.kp, kneeBlindPose]
  refine ⟨ho, ?_⟩
  have h := C10_default_falling_candidate [true, true, true, true] kneeBlindPose ho hmid rfl
    (by decide)
  exact h

/-- Witness for C9 at the low-confidence pose, the empty person list and
an unknown track id. -/
theorem C9_malformed_witness :
    classify (initClassifier {}) [] 0 = (initClassifier {}, ⟨"normal", false, "low", 0, ""⟩) ∧
    checkFalling {} lowPose = none ∧
    checkFighting {} ([] : List PersonPose) = none ∧
    checkRunning {} {} 0 0 [] 0 = none ∧
    checkLoitering {} {} 0 = none :=
  C9_malformed_input_abstains (initClassifier {}) 0 {} lowPose lowPose_invalid
    [] (by norm_num) {} 0 rfl 0 [] 0

end SurveillX

namespace SurveillX

/-! ## Helper lemmas: cooldown bookkeeping along a run -/

theorem alistGetD_set_self {κ β : Type} [DecidableEq κ] (k : κ) (v d : β)
    (l : List (κ × β)) : alistGetD k (alistSet k v l) d = v := by
  simp [alistGetD, alistGet?_set_self]

theorem alistGetD_set_ne {κ β : Type} [DecidableEq κ] {k k' : κ} (v d : β)
    (l : List (κ × β)) (h : k ≠ k') :
    alistGetD k' (alistSet k v l) d = alistGetD k' l d := by
  simp [alistGetD, alistGet?_set_ne v l h]

theorem lstmStage_cooldowns (st : ClassifierState) (ps : List PersonPose) :
    (lstmStage st ps).1.cooldowns = st.cooldowns ∧
      (lstmStage st ps).1.rules = st.rules ∧
      (lstmStage st ps).1.falling_votes = st.falling_votes ∧
      (lstmStage st ps).1.fighting_votes = st.fighting_votes ∧
      (lstmStage st ps).1.running_votes = st.running_votes ∧
      (lstmStage st ps).1.prev_keypoints = st.prev_keypoints := by
  unfold lstmStage predictLstm
  rcases hm : st.lstm_model with _ | f
  · simp
  · by_cases h0 : ps.length = 0
    · simp [h0]
    · simp only [h0, if_false]
      split_ifs <;> simp <;> split_ifs <;> simp

theorem classify_cooldown_step (st : ClassifierState) (ps : List PersonPose) (now : ℚ) :
    ((classify st ps now).1.cooldowns = st.cooldowns ∧
      (classify st ps now).2.type = "normal") ∨
    (isOnCooldown st.rules st.cooldowns (classify st ps now).2.type now = false ∧
      (classify st ps now).1.cooldowns =
        alistSet (classify st ps now).2.type now st.cooldowns) := by
  by_cases h0 : ps.length = 0
  · left
    simp [classify, h0, mkResult_type]
  · have hc := (lstmStage_cooldowns st ps).1
    simp only [classify, if_neg h0]
    split
    · left
      exact ⟨by simp [hc], rfl⟩
    · rename_i top rest heq
      right
      have htop := sortActsDesc_head_mem heq
      rw [List.mem_filter] at htop
      have hcool := htop.2
      simp only [Bool.not_eq_true', hc] at hcool
      exact ⟨by simpa [mkResult_type] using hcool, by simp [hc, mkResult_type]⟩

theorem classify_rules (st : ClassifierState) (ps : List PersonPose) (now : ℚ) :
    (classify st ps now).1.rules = st.rules := by
  by_cases h0 : ps.length = 0
  · simp [classify, h0]
  · have hc := (lstmStage_cooldowns st ps).2.1
    simp only [classify, if_neg h0]
    split <;> simp [hc]

theorem runSt_append (st : ClassifierState) (xs ys : List Frame) :
    runSt st (xs ++ ys) = runSt (runSt st xs) ys := by
  induction xs generalizing st with
  | nil => rfl
  | cons f fs ih =>
    simp only [List.cons_append, runSt]
    exact ih _

theorem runSt_rules (st : ClassifierState) (fs : List Frame) :
    (runSt st fs).rules = st.rules := by
  induction fs generalizing st with
  | nil => rfl
  | cons f fs ih =>
    simp only [runSt]
    rw [ih, classify_rules]

theorem runSt_cooldown_ge (X : String) (T : ℚ) (fs : List Frame) :
    ∀ st : ClassifierState, T ≤ alistGetD X st.cooldowns 0 →
      (∀ f ∈ fs, T ≤ f.2) →
      T ≤ alistGetD X (runSt st fs).cooldowns 0 := by
  induction fs with
  | nil => intro st h _; exact h
  | cons f fs ih =>
    intro st h hts
    simp only [runSt]
    apply ih
    · rcases classify_cooldown_step st f.1 f.2 with ⟨hsame, _⟩ | ⟨_, hset⟩
      · rw [hsame]; exact h
      · rw [hset]
        by_cases hXY : (classify st f.1 f.2).2.type = X
        · rw [hXY, alistGetD_set_self]
          exact hts f (List.mem_cons_self f fs)
        · rw [alistGetD_set_ne _ _ _ hXY]
          exact h
    · intro g hg
      exact hts g (List.mem_cons_of_mem f hg)

theorem runResults_getD (fs : List Frame) :
    ∀ (st : ClassifierState) (j : Nat), j < fs.length →
      (runResults st fs).getD j default =
        (classify (runSt st (fs.take j)) (fs.getD j default).1 (fs.getD j default).2).2 := by
  induction fs with
  | nil =>
    intro st j hj
    simp at hj
  | cons f fs ih =>
    intro st j hj
    cases j with
    | zero => simp [runResults, runSt, List.getD_cons_zero]
    | succ j =>
      simp only [runResults, List.getD_cons_succ, List.take_succ_cons, runSt]
      exact ih _ j (by simpa using hj)

end SurveillX

namespace SurveillX

/-- Claim C2: cooldown suppression.  Along any run with monotone frame
timestamps, if a non-normal activity type X is emitted at frame i and
emitted again at a later frame j, the two frames' timestamps are at
least the activity cooldown apart; equivalently, after X is confirmed at
time T no result of type X is emitted at any frame whose timestamp t
satisfies t - T < activity_cooldown, however the candidate conditions
evolve in between. -/
theorem C2_cooldown_suppression (st0 : ClassifierState) (frames : List Frame)
    (X : String) (hX : X ≠ "normal") (i j : Nat) (hij : i < j) (hj : j < frames.length)
    (hmono : ∀ a b : Nat, a < b → b < frames.length →
      (frames.getD a default).2 ≤ (frames.getD b default).2)
    (hi : ((runResults st0 frames).getD i default).type = X)
    (hjX : ((runResults st0 frames).getD j default).type = X) :
    st0.rules.activity_cooldown ≤ (frames.getD j default).2 - (frames.getD i default).2 := by
  have hi' : i < frames.length := lt_trans hij hj
  rw [runResults_getD frames st0 i hi'] at hi
  rw [runResults_getD frames st0 j hj] at hjX
  rcases classify_cooldown_step (runSt st0 (frames.take i)) (frames.getD i default).1
      (frames.getD i default).2 with ⟨_, hn⟩ | ⟨_, hset⟩
  · exact absurd (hi.symm.trans hn) hX
  have htake : frames.take (i + 1) = frames.take i ++ [frames.getD i default] := by
    rw [List.take_succ]
    rw [List.getElem?_eq_getElem hi']
    rw [List.getD_eq_getElem frames default hi']
    rfl
  have hst1 : runSt st0 (frames.take (i + 1)) =
      (classify (runSt st0 (frames.take i)) (frames.getD i default).1
        (frames.getD i default).2).1 := by
    rw [htake, runSt_append]
    rfl
  have hTset : alistGetD X (runSt st0 (frames.take (i + 1))).cooldowns 0 =
      (frames.getD i default).2 := by
    rw [hst1, hset, hi, alistGetD_set_self]
  have hsplit : frames.take j = frames.take (i + 1) ++ (frames.take j).drop (i + 1) := by
    conv_lhs => rw [← List.take_append_drop (i + 1) (frames.take j)]
    rw [List.take_take, min_eq_left (Nat.succ_le_of_lt hij)]
  have hts : ∀ f ∈ (frames.take j).drop (i + 1), (frames.getD i default).2 ≤ f.2 := by
    intro f hf
    rw [List.mem_iff_getElem] at hf
    obtain ⟨m, hm, hfm⟩ := hf
    have hjlen : (frames.take j).length = j := by
      simp [List.length_take]
      omega
    have hmlt : i + 1 + m < j := by
      rw [List.length_drop, hjlen] at hm
      omega
    have hfi : f = frames.getD (i + 1 + m) default := by
      rw [← hfm, List.getElem_drop]
      rw [List.getElem_take]
      rw [List.getD_eq_getElem frames default (by omega)]
    rw [hfi]
    exact hmono i (i + 1 + m) (by omega) (by omega)
  have hge : (frames.getD i default).2 ≤
      alistGetD X (runSt st0 (frames.take j)).cooldowns 0 := by
    rw [hsplit, runSt_append]
    exact runSt_cooldown_ge X _ _ _ (le_of_eq hTset.symm) hts
  rcases classify_cooldown_step (runSt st0 (frames.take j)) (frames.getD j default).1
      (frames.getD j default).2 with ⟨_, hn⟩ | ⟨hcool, _⟩
  · exact absurd (hjX.symm.trans hn) hX
  · rw [hjX, runSt_rules] at hcool
    simp only [isOnCooldown, decide_eq_false_iff_not, not_lt] at hcool
    linarith [hcool, hge]

end SurveillX

namespace SurveillX

theorem classify_c2_frame1 :
    classify c2state [flatPose] 100 =
      (c2state1, mkResult "falling" (9 / 10 : ℝ)
        "Person appears to have fallen (body angle)") := by
  have hmap : [flatPose].map (fun q => q.mid 11 12) = [((0 : ℚ), (0 : ℚ))] := by
    simp [flatPose_hipMid]
  have hbbs : [flatPose].map PersonPose.bbox = [none] := rfl
  have htr := trackerUpdate_origin
  have hls : lstmStage c2state [flatPose] = (c2state, []) := lstmStage_noModel _ rfl
  have hsr : c2state.rules = ({} : ActivityRules) := rfl
  have hstt : c2state.tracker = originTracker := rfl
  have hsfv : c2state.falling_votes = [(0, [true, true, true])] := rfl
  have hsgv : c2state.fighting_votes = ([] : List Bool) := rfl
  have hsrv : c2state.running_votes = ([] : List (Nat × List Bool)) := rfl
  have hscd : c2state.cooldowns = ([] : List (String × ℚ)) := rfl
  have hspk : c2state.prev_keypoints = ([] : List (Nat × Arr2)) := rfl
  have hslm : c2state.lstm_model = none := rfl
  have hslb : c2state.lstm_buffer = ([] : List (List ℝ)) := rfl
  have hslv : c2state.lstm_votes = ([] : List String) := rfl
  have hv0 : getVelocity originTracker1 0 5 = none := by
    simp [getVelocity, alistGet?, originTracker1]
  have hr0 := @checkRunning_of_none originTracker1 {} 0 100 [flatPose] 0 hv0
  have hlo0 : checkLoitering originTracker1 {} 0 = none := by
    norm_num [checkLoitering, getTrackDuration, alistGet?, originTracker1]
  have h_fl : fallingLoop {} [0] 0 [flatPose] [(0, [true, true, true])] =
      ([(0, [true, true, true, true])],
        [("falling", (9 / 10 : ℝ), "Person appears to have fallen (body angle)")]) := by
    simp only [fallingLoop, checkFalling_flatPose, Option.isSome_some]
    norm_num [fallingTid, alistGetD, alistGet?, alistSet, dequeAppend, countTrue,
      List.count_cons, List.count_nil]
  have h_fg : fightingStage ({} : ActivityRules) [flatPose] [] = ([], []) := by
    simp [fightingStage]
  have h_rn : runningLoop originTracker1 {} 100 [flatPose] 0 [((0 : ℚ × ℚ), 0)] [] =
      ([(0, [false])], []) := by
    simp only [runningLoop, hr0, Option.isSome_none]
    norm_num [alistGetD, alistGet?, alistSet, dequeAppend, countTrue]
  have h_lo : loiterLoop originTracker1 {} [((0 : ℚ × ℚ), 0)] = [] := by
    simp only [loiterLoop, hlo0]
    simp [loiterLoop]
  have h_pk : prevLoop [flatPose] 0 [((0 : ℚ × ℚ), 0)] [] = [(0, flatPose.keypoints)] := by
    norm_num [prevLoop, alistSet]
  have hfloor : (decide (((9 / 20 : ℚ) : ℝ) ≤ (9 / 10 : ℝ))) = true := by norm_num
  have hcool : isOnCooldown {} [] "falling" 100 = false := by
    norm_num [isOnCooldown, alistGetD, alistGet?]
  simp only [Prod.mk_zero_zero] at hmap htr h_rn h_lo h_pk
  norm_num [classify, hmap, hbbs, htr, hls, hsr, hstt, hsfv, hsgv, hsrv, hscd, hspk,
    hslm, hslb, hslv, h_fl, h_fg, h_rn, h_lo, h_pk, hfloor, hcool, sortActsDesc,
    insertActDesc, c2state1, alistSet]

end SurveillX

namespace SurveillX

theorem trackerUpdate_origin1 :
    trackerUpdate originTracker1 [(0 : ℚ × ℚ)] 106 [none] =
      (originTracker2, [((0 : ℚ × ℚ), 0)]) := by
  have hbm : bestMatch originTracker1 [] ((0 : ℚ), (0 : ℚ)) none = (some 0, 1) := by
    norm_num [bestMatch, originTracker1, alistGet?, rdist_self]
    simp
  simp only [Prod.mk_zero_zero] at hbm
  have hstep : trackerStep originTracker1 [] [] (0 : ℚ × ℚ) none 106 =
      (originTracker2, [0], [((0 : ℚ × ℚ), 0)]) := by
    simp only [trackerStep, hbm]
    norm_num [originTracker1, originTracker2, alistGetD, alistGet?, alistSet, dequeAppend]
  have hpurge : purgeStale originTracker2 106 = originTracker2 := by
    norm_num [purgeStale, originTracker2]
  simp only [trackerUpdate, trackerLoop, List.headD, hstep, hpurge]

theorem survivingActs_c2_frame2 :
    survivingActs c2state1 [flatPose] 106 =
      [("falling", (9 / 10 : ℝ), "Person appears to have fallen (body angle)")] := by
  have hmap : [flatPose].map (fun q => q.mid 11 12) = [((0 : ℚ), (0 : ℚ))] := by
    simp [flatPose_hipMid]
  have hbbs : [flatPose].map PersonPose.bbox = [none] := rfl
  have htr := trackerUpdate_origin1
  have hls : lstmStage c2state1 [flatPose] = (c2state1, []) := lstmStage_noModel _ rfl
  have hsr : c2state1.rules = ({} : ActivityRules) := rfl
  have hstt : c2state1.tracker = originTracker1 := rfl
  have hsfv : c2state1.falling_votes = [(0, [true, true, true, true])] := rfl
  have hsgv : c2state1.fighting_votes = ([] : List Bool) := rfl
  have hsrv : c2state1.running_votes = [(0, [false])] := rfl
  have hscd : c2state1.cooldowns = [("falling", 100)] := rfl
  have hv0 : getVelocity originTracker2 0 5 = none := by
    simp [getVelocity, alistGet?, originTracker2]
  have hr0 := @checkRunning_of_none originTracker2 {} 0 106 [flatPose] 0 hv0
  have hlo0 : checkLoitering originTracker2 {} 0 = none := by
    norm_num [checkLoitering, getTrackDuration, alistGet?, originTracker2]
  have h_fl : fallingLoop {} [0] 0 [flatPose] [(0, [true, true, true, true])] =
      ([(0, [true, true, true, true, true])],
        [("falling", (9 / 10 : ℝ), "Person appears to have fallen (body angle)")]) := by
    simp only [fallingLoop, checkFalling_flatPose, Option.isSome_some]
    norm_num [fallingTid, alistGetD, alistGet?, alistSet, dequeAppend, countTrue,
      List.count_cons, List.count_nil]
  have h_fg : fightingStage ({} : ActivityRules) [flatPose] [] = ([], []) := by
    simp [fightingStage]
  have h_rn : runningLoop originTracker2 {} 106 [flatPose] 0 [((0 : ℚ × ℚ), 0)] [(0, [false])] =
      ([(0, [false, false])], []) := by
    simp only [runningLoop, hr0, Option.isSome_none]
    norm_num [alistGetD, alistGet?, alistSet, dequeAppend, countTrue, List.count_cons,
      List.count_nil]
  have h_lo : loiterLoop originTracker2 {} [((0 : ℚ × ℚ), 0)] = [] := by
    simp only [loiterLoop, hlo0]
    simp [loiterLoop]
  have hfloor : (decide (((9 / 20 : ℚ) : ℝ) ≤ (9 / 10 : ℝ))) = true := by norm_num
  have hcool : isOnCooldown {} [("falling", 100)] "falling" 106 = false := by
    norm_num [isOnCooldown, alistGetD, alistGet?]
  simp only [Prod.mk_zero_zero] at hmap htr h_rn h_lo
  norm_num [survivingActs, hmap, hbbs, htr, hls, hsr, hstt, hsfv, hsgv, hsrv, hscd,
    h_fl, h_fg, h_rn, h_lo, hfloor, hcool]

theorem classify_c2_frame2 :
    (classify c2state1 [flatPose] 106).2 =
      mkResult "falling" (9 / 10 : ℝ) "Person appears to have fallen (body angle)" := by
  rw [classify_result_eq _ _ _ (by norm_num), survivingActs_c2_frame2, sortActsDesc_singleton]

end SurveillX

namespace SurveillX

/-- Witness for C2: in the two-frame flat-pose run six seconds apart,
falling is emitted on both frames and the two emissions are indeed at
least the activity cooldown apart. -/
theorem C2_cooldown_witness :
    ((runResults c2state c2frames).getD 0 default).type = "falling" ∧
    ((runResults c2state c2frames).getD 1 default).type = "falling" ∧
    c2state.rules.activity_cooldown ≤
      (c2frames.getD 1 default).2 - (c2frames.getD 0 default).2 := by
  have hrun : runResults c2state c2frames =
      [mkResult "falling" (9 / 10 : ℝ) "Person appears to have fallen (body angle)",
       mkResult "falling" (9 / 10 : ℝ) "Person appears to have fallen (body angle)"] := by
    simp only [c2frames, runResults, classify_c2_frame1, classify_c2_frame2]
  have h0 : ((runResults c2state c2frames).getD 0 default).type = "falling" := by
    rw [hrun]; rfl
  have h1 : ((runResults c2state c2frames).getD 1 default).type = "falling" := by
    rw [hrun]; rfl
  refine ⟨h0, h1, ?_⟩
  refine C2_cooldown_suppression c2state c2frames "falling" (by decide) 0 1
    (by norm_num) (by norm_num [c2frames]) ?_ h0 h1
  intro a b hab hb
  simp only [c2frames, List.length_cons, List.length_nil] at hb
  have hb1 : b = 1 ∧ a = 0 := by omega
  rw [hb1.1, hb1.2]
  simp [c2frames]
  norm_num

end SurveillX

namespace SurveillX

/-! ## Helper lemmas: falling-vote budget -/

theorem fallingLoop_bound (r : ActivityRules) (tids : List Nat) (ps : List PersonPose) :
    ∀ (idx : Nat) (votes : List (Nat × List Bool)),
      fallingTrueTotal (fallingLoop r tids idx ps votes).1 ≤
        fallingTrueTotal votes + ps.countP (fun p => (checkFalling r p).isSome) ∧
      (fallingTrueTotal votes + ps.countP (fun p => (checkFalling r p).isSome) <
          r.falling_persistence →
        (fallingLoop r tids idx ps votes).2 = []) := by
  induction ps with
  | nil =>
    intro idx votes
    refine ⟨by simp [fallingLoop], fun _ => by simp [fallingLoop]⟩
  | cons p ps ih =>
    intro idx votes
    have hcnt := List.countP_cons (fun q => (checkFalling r q).isSome) p ps
    have key1 := countTrue_dequeAppend_le r.falling_window
      (alistGetD (fallingTid tids idx) votes []) (checkFalling r p).isSome
    have key2 := fallingTrueTotal_set (fallingTid tids idx)
      (dequeAppend r.falling_window (alistGetD (fallingTid tids idx) votes [])
        (checkFalling r p).isSome) votes
    have key3 := countTrue_le_fallingTrueTotal (fallingTid tids idx) votes
    have ihs := ih (idx + 1)
      (alistSet (fallingTid tids idx)
        (dequeAppend r.falling_window (alistGetD (fallingTid tids idx) votes [])
          (checkFalling r p).isSome) votes)
    simp only [fallingLoop]
    cases hv : (checkFalling r p).isSome <;>
      rw [hv] at hcnt key1 key2 ihs <;>
      simp only [if_true, if_false, Bool.false_eq_true, ite_true, ite_false] at hcnt key1 <;>
      norm_num at hcnt key1 <;>
      constructor
    · exact le_trans ihs.1 (by omega)
    · intro hlt
      rw [hcnt] at hlt
      have hbuf : countTrue (dequeAppend r.falling_window
          (alistGetD (fallingTid tids idx) votes []) false) <
          r.falling_persistence := by omega
      have hrest : (fallingLoop r tids (idx + 1) ps
          (alistSet (fallingTid tids idx)
            (dequeAppend r.falling_window (alistGetD (fallingTid tids idx) votes [])
              false) votes)).2 = [] := ihs.2 (by omega)
      rw [if_neg (not_le.mpr hbuf), hrest]
      rfl
    · exact le_trans ihs.1 (by omega)
    · intro hlt
      rw [hcnt] at hlt
      have hbuf : countTrue (dequeAppend r.falling_window
          (alistGetD (fallingTid tids idx) votes []) true) <
          r.falling_persistence := by omega
      have hrest : (fallingLoop r tids (idx + 1) ps
          (alistSet (fallingTid tids idx)
            (dequeAppend r.falling_window (alistGetD (fallingTid tids idx) votes [])
              true) votes)).2 = [] := ihs.2 (by omega)
      rw [if_neg (not_le.mpr hbuf), hrest]
      rfl

end SurveillX

namespace SurveillX

theorem survivingActs_mem (st : ClassifierState) (ps : List PersonPose) (now : ℚ)
    (hm : st.lstm_model = none) :
    ∀ a ∈ survivingActs st ps now,
      a ∈ (fallingLoop st.rules
        ((trackerUpdate st.tracker (ps.map fun p => p.mid 11 12) now
          (ps.map PersonPose.bbox)).2.map Prod.snd) 0 ps st.falling_votes).2 ∨
      a.1 = "fighting" ∨ a.1 = "running" ∨ a.1 = "loitering" := by
  intro a ha
  simp only [survivingActs, lstmStage_noModel ps hm, List.mem_filter, List.mem_append,
    List.nil_append, List.not_mem_nil, false_or] at ha
  obtain ⟨⟨hmem, _⟩, _⟩ := ha
  rcases hmem with ((hfl | hfg) | hrn) | hlo
  · exact Or.inl hfl
  · exact Or.inr (Or.inl (fightingStage_types _ _ _ a hfg))
  · exact Or.inr (Or.inr (Or.inl (runningLoop_types _ _ _ _ _ _ _ a hrn)))
  · exact Or.inr (Or.inr (Or.inr (loiterLoop_types _ _ _ a hlo)))

theorem classify_state_noModel (st : ClassifierState) (ps : List PersonPose) (now : ℚ)
    (h0 : ¬ps.length = 0) (hm : st.lstm_model = none) :
    (classify st ps now).1.lstm_model = none ∧
    (classify st ps now).1.rules = st.rules ∧
    (classify st ps now).1.falling_votes =
      (fallingLoop st.rules
        ((trackerUpdate st.tracker (ps.map fun p => p.mid 11 12) now
          (ps.map PersonPose.bbox)).2.map Prod.snd) 0 ps st.falling_votes).1 := by
  simp only [classify, if_neg h0, lstmStage_noModel ps hm]
  split <;> exact ⟨hm, rfl, rfl⟩

theorem classify_no_falling_step (st : ClassifierState) (ps : List PersonPose) (now : ℚ)
    (hm : st.lstm_model = none)
    (hb : fallingTrueTotal st.falling_votes +
        ps.countP (fun p => (checkFalling st.rules p).isSome) <
      st.rules.falling_persistence) :
    (classify st ps now).2.type ≠ "falling" ∧
    (classify st ps now).1.lstm_model = none ∧
    (classify st ps now).1.rules = st.rules ∧
    fallingTrueTotal (classify st ps now).1.falling_votes ≤
      fallingTrueTotal st.falling_votes +
        ps.countP (fun p => (checkFalling st.rules p).isSome) := by
  by_cases h0 : ps.length = 0
  · refine ⟨?_, ?_, ?_, ?_⟩ <;> simp [classify, h0, hm, mkResult]
  · have hflb := fallingLoop_bound st.rules
      ((trackerUpdate st.tracker (ps.map fun p => p.mid 11 12) now
        (ps.map PersonPose.bbox)).2.map Prod.snd) ps 0 st.falling_votes
    have hst := classify_state_noModel st ps now h0 hm
    refine ⟨?_, hst.1, hst.2.1, ?_⟩
    · rw [classify_result_eq st ps now h0]
      rcases hs : sortActsDesc (survivingActs st ps now) with _ | ⟨top, rest⟩
      · simp [mkResult]
      · simp only [mkResult]
        have htop := survivingActs_mem st ps now hm top (sortActsDesc_head_mem hs)
        rcases htop with hmem | ht | ht | ht
        · rw [hflb.2 hb] at hmem
          simp at hmem
        · rw [ht]; decide
        · rw [ht]; decide
        · rw [ht]; decide
    · rw [hst.2.2]
      exact hflb.1

theorem runResults_no_falling (r : ActivityRules) (fs : List Frame) :
    ∀ st : ClassifierState,
      st.lstm_model = none → st.rules = r →
      fallingTrueTotal st.falling_votes + qualCount r fs < r.falling_persistence →
      ∀ res ∈ runResults st fs, res.type ≠ "falling" := by
  induction fs with
  | nil =>
    intro st _ _ _ res hres
    simp [runResults] at hres
  | cons f fs ih =>
    intro st hm hr hb res hres
    have hq : qualCount r (f :: fs) =
        f.1.countP (fun p => (checkFalling r p).isSome) + qualCount r fs := by
      simp [qualCount]
    rw [hq] at hb
    have hb1 : fallingTrueTotal st.falling_votes +
        f.1.countP (fun p => (checkFalling st.rules p).isSome) <
        st.rules.falling_persistence := by
      rw [hr]
      omega
    have hstep := classify_no_falling_step st f.1 f.2 hm hb1
    simp only [runResults] at hres
    rcases List.mem_cons.mp hres with hres | hres
    · rw [hres]
      exact hstep.1
    · refine ih (classify st f.1 f.2).1 hstep.2.1 (hstep.2.2.1.trans hr) ?_ res hres
      have hle := hstep.2.2.2
      rw [hr] at hle
      omega

/-- Claim C1: no single-frame falling alerts.  For any configuration
whose falling persistence bar is greater than 1, a run of the freshly
constructed classifier in which at most one pose across all frames
passes the single-frame falling check never emits an ActivityResult of
type falling on any frame. -/
theorem C1_no_single_frame_falling (r : ActivityRules) (h2 : 1 < r.falling_persistence)
    (frames : List Frame) (hq : qualCount r frames ≤ 1) :
    ∀ res ∈ runResults (initClassifier r) frames, res.type ≠ "falling" := by
  apply runResults_no_falling r frames (initClassifier r) rfl rfl
  have h0 : fallingTrueTotal (initClassifier r).falling_votes = 0 := rfl
  rw [h0]
  omega

/-- Witness for C1: the two-frame run with one qualifying flat pose and
one low-confidence pose has exactly one qualifying pose, and under the
default rules (persistence 4) no frame's result has type falling. -/
theorem C1_witness :
    qualCount {} c1frames = 1 ∧
      ∀ res ∈ runResults (initClassifier {}) c1frames, res.type ≠ "falling" := by
  have hq : qualCount ({} : ActivityRules) c1frames = 1 := by
    have h1 : (checkFalling {} flatPose).isSome = true := by
      rw [checkFalling_flatPose]; rfl
    have h2 : (checkFalling {} lowPose).isSome = false := by
      rw [checkFalling_of_invalid {} lowPose lowPose_invalid]; rfl
    simp only [qualCount, c1frames, List.map_cons, List.map_nil, List.countP_cons,
      List.countP_nil, h1, h2, List.sum_cons, List.sum_nil]
    norm_num
  exact ⟨hq, C1_no_single_frame_falling {} (by norm_num) c1frames (le_of_eq hq)⟩

end SurveillX

namespace SurveillX

/-! ## Helper lemmas: stale purge and vote-key persistence -/

theorem purgeStale_sound (u : TrackerState) (t : ℚ) :
    ∀ e ∈ (purgeStale u t).last_seen, t - e.2 ≤ u.stale_timeout := by
  intro e he
  simp only [purgeStale] at he
  rw [List.mem_filter] at he
  obtain ⟨hmem, hnot⟩ := he
  rw [decide_eq_true_eq] at hnot
  by_contra hgt
  push_neg at hgt
  apply hnot
  simp only [List.mem_map]
  exact ⟨e, List.mem_filter.mpr ⟨hmem, by rw [decide_eq_true_eq]; linarith⟩, rfl⟩

theorem trackerStep_stale_timeout (ts : TrackerState) (used : List Nat)
    (m : List ((ℚ × ℚ) × Nat)) (c : ℚ × ℚ) (b : Option (ℚ × ℚ × ℚ × ℚ)) (t : ℚ) :
    (trackerStep ts used m c b t).1.stale_timeout = ts.stale_timeout := rfl

theorem trackerLoop_stale_timeout (t : ℚ) :
    ∀ (cs : List (ℚ × ℚ)) (ts : TrackerState) (used : List Nat)
      (m : List ((ℚ × ℚ) × Nat)) (bbs : List (Option (ℚ × ℚ × ℚ × ℚ))),
      (trackerLoop t ts used m cs bbs).1.stale_timeout = ts.stale_timeout := by
  intro cs
  induction cs with
  | nil => intro ts used m bbs; rfl
  | cons c cs ih =>
    intro ts used m bbs
    simp only [trackerLoop]
    rw [ih]
    rfl

theorem alistGet?_set_isSome {κ β : Type} [DecidableEq κ] (k k' : κ) (v : β)
    (l : List (κ × β)) (h : alistGet? k l ≠ none) :
    alistGet? k (alistSet k' v l) ≠ none := by
  by_cases hkk : k' = k
  · subst hkk
    rw [alistGet?_set_self]
    simp
  · rw [alistGet?_set_ne v l hkk]
    exact h

theorem fallingLoop_keys (r : ActivityRules) (tids : List Nat) :
    ∀ (ps : List PersonPose) (idx : Nat) (votes : List (Nat × List Bool)) (k : Nat),
      alistGet? k votes ≠ none →
      alistGet? k (fallingLoop r tids idx ps votes).1 ≠ none := by
  intro ps
  induction ps with
  | nil =>
    intro idx votes k hk
    simpa [fallingLoop] using hk
  | cons p ps ih =>
    intro idx votes k hk
    simp only [fallingLoop]
    exact ih (idx + 1) _ k (alistGet?_set_isSome k _ _ votes hk)

theorem classify_falling_keys (st : ClassifierState) (ps : List PersonPose) (now : ℚ)
    (k : Nat) (hk : alistGet? k st.falling_votes ≠ none) :
    alistGet? k (classify st ps now).1.falling_votes ≠ none := by
  by_cases h0 : ps.length = 0
  · simpa [classify, h0] using hk
  · have hfv := (lstmStage_cooldowns st ps).2.2.1
    simp only [classify, if_neg h0]
    split <;>
      exact fallingLoop_keys _ _ _ _ _ k (by rw [hfv]; exact hk)

/-- Claim C5 (corrected): the tracker's stale purge is sound — after
PersonTracker.update at time t every surviving track was seen within
stale_timeout of t — but no per-track voting state is destroyed with a
stale track: classify never removes a falling-vote buffer, so a track
id's voting buffers survive the destruction of the track itself. -/
theorem C5_purge_without_vote_purge (ts : TrackerState) (cs : List (ℚ × ℚ)) (t : ℚ)
    (bbs : List (Option (ℚ × ℚ × ℚ × ℚ))) (st : ClassifierState) (ps : List PersonPose)
    (now : ℚ) (k : Nat) (hk : alistGet? k st.falling_votes ≠ none) :
    (∀ e ∈ (trackerUpdate ts cs t bbs).1.last_seen, t - e.2 ≤ ts.stale_timeout) ∧
    alistGet? k (classify st ps now).1.falling_votes ≠ none := by
  constructor
  · intro e he
    simp only [trackerUpdate] at he
    have hs := purgeStale_sound (trackerLoop t ts [] [] cs bbs).1 t e he
    rwa [trackerLoop_stale_timeout] at hs
  · exact classify_falling_keys st ps now k hk

/-- Witness for C5 at the second counterexample frame: the vote buffer
of track 0 exists going in, every track surviving the update at time 10
was seen within the stale timeout, and the vote buffer still exists
after classify. -/
theorem C5_witness :
    alistGet? 0 c5state1.falling_votes ≠ none ∧
    ((∀ e ∈ (trackerUpdate c5tracker1 [((1000 : ℚ), (1000 : ℚ))] 10 [none]).1.last_seen,
        10 - e.2 ≤ c5tracker1.stale_timeout) ∧
      alistGet? 0 (classify c5state1 [farPose] 10).1.falling_votes ≠ none) := by
  have hk : alistGet? 0 c5state1.falling_votes ≠ none := by
    simp [c5state1, alistGet?]
  exact ⟨hk, C5_purge_without_vote_purge c5tracker1 [(1000, 1000)] 10 [none] c5state1
    [farPose] 10 0 hk⟩

end SurveillX

namespace SurveillX

theorem lowPose_mid : lowPose.mid 11 12 = ((0 : ℚ), (0 : ℚ)) := by
  simp [PersonPose.mid, PersonPose.kp, lowPose]

theorem farPose_mid : farPose.mid 11 12 = ((1000 : ℚ), (1000 : ℚ)) := by
  simp [PersonPose.mid, PersonPose.kp, farPose]

theorem trackerUpdate_c5_frame1 :
    trackerUpdate ({} : TrackerState) [(0 : ℚ × ℚ)] 0 [none] =
      (c5tracker1, [((0 : ℚ × ℚ), 0)]) := by
  norm_num [trackerUpdate, trackerLoop, trackerStep, bestMatch, purgeStale, alistGetD,
    alistGet?, alistSet, dequeAppend, c5tracker1]

theorem rdist_far : rdist ((1000 : ℚ), (1000 : ℚ)) ((0 : ℚ), (0 : ℚ)) =
    Real.sqrt 2000000 := by
  unfold rdist
  norm_num

theorem sqrt_far_ge : ¬(Real.sqrt 2000000 < (120 : ℝ)) := by
  have h2 : (120 : ℝ) ≤ Real.sqrt 2000000 := by
    rw [show (120 : ℝ) = Real.sqrt 14400 by
      rw [show (14400 : ℝ) = 120 ^ 2 by norm_num, Real.sqrt_sq (by norm_num)]]
    exact Real.sqrt_le_sqrt (by norm_num)
  exact not_lt.mpr h2

theorem trackerUpdate_c5_frame2 :
    trackerUpdate c5tracker1 [((1000 : ℚ), (1000 : ℚ))] 10 [none] =
      (c5tracker2, [(((1000 : ℚ), (1000 : ℚ)), 1)]) := by
  have hdist := rdist_far
  simp only [Prod.mk_zero_zero] at hdist
  have hbm : bestMatch c5tracker1 [] ((1000 : ℚ), (1000 : ℚ)) none = (some 0, 0) := by
    norm_num [bestMatch, c5tracker1, alistGet?, hdist, sqrt_far_ge]
  have hstep : trackerStep c5tracker1 [] [] ((1000 : ℚ), (1000 : ℚ)) none 10 =
      ({ tracks := [(0, [(0, 0, 0)]), (1, [(1000, 1000, 10)])]
         last_seen := [(0, 0), (1, 10)]
         last_bbox := []
         next_id := 2 }, [1], [(((1000 : ℚ), (1000 : ℚ)), 1)]) := by
    simp only [trackerStep, hbm]
    norm_num [c5tracker1, alistGetD, alistGet?, alistSet, dequeAppend]
  have hpurge : purgeStale
      { tracks := [(0, [(0, 0, 0)]), (1, [(1000, 1000, 10)])]
        last_seen := [(0, 0), (1, 10)]
        last_bbox := []
        next_id := 2 } 10 = c5tracker2 := by
    norm_num [purgeStale, c5tracker2]
  simp only [trackerUpdate, trackerLoop, List.headD, hstep, hpurge]

end SurveillX

namespace SurveillX

theorem classify_c5_frame1 :
    classify (initClassifier {}) [lowPose] 0 = (c5state1, mkResult "normal" 0 "") := by
  have hchk : checkFalling {} lowPose = none :=
    checkFalling_of_invalid {} lowPose lowPose_invalid
  have hmap : [lowPose].map (fun q => q.mid 11 12) = [((0 : ℚ), (0 : ℚ))] := by
    simp [lowPose_mid]
  have hbbs : [lowPose].map PersonPose.bbox = [none] := rfl
  have htr := trackerUpdate_c5_frame1
  have hls : lstmStage (initClassifier {}) [lowPose] = (initClassifier {}, []) :=
    lstmStage_noModel _ rfl
  have hs1 : (initClassifier {}).rules = ({} : ActivityRules) := rfl
  have hs2 : (initClassifier {}).tracker = ({} : TrackerState) := rfl
  have hs3 : (initClassifier {}).falling_votes = ([] : List (Nat × List Bool)) := rfl
  have hs4 : (initClassifier {}).fighting_votes = ([] : List Bool) := rfl
  have hs5 : (initClassifier {}).running_votes = ([] : List (Nat × List Bool)) := rfl
  have hs6 : (initClassifier {}).cooldowns = ([] : List (String × ℚ)) := rfl
  have hs7 : (initClassifier {}).prev_keypoints = ([] : List (Nat × Arr2)) := rfl
  have hs8 : (initClassifier {}).lstm_model = none := rfl
  have hs9 : (initClassifier {}).lstm_buffer = ([] : List (List ℝ)) := rfl
  have hs10 : (initClassifier {}).lstm_votes = ([] : List String) := rfl
  have hv0 : getVelocity c5tracker1 0 5 = none := by
    simp [getVelocity, alistGet?, c5tracker1]
  have hr0 := @checkRunning_of_none c5tracker1 {} 0 0 [lowPose] 0 hv0
  have hlo0 : checkLoitering c5tracker1 {} 0 = none := by
    norm_num [checkLoitering, getTrackDuration, alistGet?, c5tracker1]
  have h_fl : fallingLoop {} [0] 0 [lowPose] [] = ([(0, [false])], []) := by
    simp only [fallingLoop, hchk, Option.isSome_none]
    norm_num [fallingTid, alistGetD, alistGet?, alistSet, dequeAppend, countTrue]
  have h_fg : fightingStage ({} : ActivityRules) [lowPose] [] = ([], []) := by
    simp [fightingStage]
  have h_rn : runningLoop c5tracker1 {} 0 [lowPose] 0 [((0 : ℚ × ℚ), 0)] [] =
      ([(0, [false])], []) := by
    simp only [runningLoop, hr0, Option.isSome_none]
    norm_num [alistGetD, alistGet?, alistSet, dequeAppend, countTrue]
  have h_lo : loiterLoop c5tracker1 {} [((0 : ℚ × ℚ), 0)] = [] := by
    simp only [loiterLoop, hlo0]
    simp [loiterLoop]
  have h_pk : prevLoop [lowPose] 0 [((0 : ℚ × ℚ), 0)] [] = [(0, lowPose.keypoints)] := by
    norm_num [prevLoop, alistSet]
  simp only [Prod.mk_zero_zero] at hmap htr h_rn h_lo h_pk
  norm_num [classify, hmap, hbbs, htr, hls, hs1, hs2, hs3, hs4, hs5, hs6, hs7, hs8,
    hs9, hs10, h_fl, h_fg, h_rn, h_lo, h_pk, sortActsDesc, c5state1]

theorem classify_c5_frame2 :
    classify c5state1 [farPose] 10 = (c5state2, mkResult "normal" 0 "") := by
  have hchk : checkFalling {} farPose = none :=
    checkFalling_of_invalid {} farPose farPose_invalid
  have hmap : [farPose].map (fun q => q.mid 11 12) = [((1000 : ℚ), (1000 : ℚ))] := by
    simp [farPose_mid]
  have hbbs : [farPose].map PersonPose.bbox = [none] := rfl
  have htr := trackerUpdate_c5_frame2
  have hls : lstmStage c5state1 [farPose] = (c5state1, []) := lstmStage_noModel _ rfl
  have hs1 : c5state1.rules = ({} : ActivityRules) := rfl
  have hs2 : c5state1.tracker = c5tracker1 := rfl
  have hs3 : c5state1.falling_votes = [(0, [false])] := rfl
  have hs4 : c5state1.fighting_votes = ([] : List Bool) := rfl
  have hs5 : c5state1.running_votes = [(0, [false])] := rfl
  have hs6 : c5state1.cooldowns = ([] : List (String × ℚ)) := rfl
  have hs7 : c5state1.prev_keypoints = [(0, lowPose.keypoints)] := rfl
  have hs8 : c5state1.lstm_model = none := rfl
  have hs9 : c5state1.lstm_buffer = ([] : List (List ℝ)) := rfl
  have hs10 : c5state1.lstm_votes = ([] : List String) := rfl
  have hv1 : getVelocity c5tracker2 1 5 = none := by
    simp [getVelocity, alistGet?, c5tracker2]
  have hr1 := @checkRunning_of_none c5tracker2 {} 1 10 [farPose] 0 hv1
  have hlo1 : checkLoitering c5tracker2 {} 1 = none := by
    norm_num [checkLoitering, getTrackDuration, alistGet?, c5tracker2]
  have h_fl : fallingLoop {} [1] 0 [farPose] [(0, [false])] =
      ([(0, [false]), (1, [false])], []) := by
    simp only [fallingLoop, hchk, Option.isSome_none]
    norm_num [fallingTid, alistGetD, alistGet?, alistSet, dequeAppend, countTrue]
  have h_fg : fightingStage ({} : ActivityRules) [farPose] [] = ([], []) := by
    simp [fightingStage]
  have h_rn : runningLoop c5tracker2 {} 10 [farPose] 0 [(((1000 : ℚ), (1000 : ℚ)), 1)]
      [(0, [false])] = ([(0, [false]), (1, [false])], []) := by
    simp only [runningLoop, hr1, Option.isSome_none]
    norm_num [alistGetD, alistGet?, alistSet, dequeAppend, countTrue]
  have h_lo : loiterLoop c5tracker2 {} [(((1000 : ℚ), (1000 : ℚ)), 1)] = [] := by
    simp only [loiterLoop, hlo1]
    simp [loiterLoop]
  have h_pk : prevLoop [farPose] 0 [(((1000 : ℚ), (1000 : ℚ)), 1)] [(0, lowPose.keypoints)] =
      [(0, lowPose.keypoints), (1, farPose.keypoints)] := by
    norm_num [prevLoop, alistSet]
  norm_num [classify, hmap, hbbs, htr, hls, hs1, hs2, hs3, hs4, hs5, hs6, hs7, hs8,
    hs9, hs10, h_fl, h_fg, h_rn, h_lo, h_pk, sortActsDesc, c5state2]

/-- Counterexample for C5: after the two-frame run in which track 0 goes
stale and is destroyed at the second update, the tracker no longer knows
track 0 but the classifier's falling-vote map still holds a buffer for
it — the voting state of a destroyed track is not purged. -/
theorem C5_counterexample :
    alistGet? 0 (runSt (initClassifier {}) c5frames).tracker.tracks = none ∧
      alistGet? 0 (runSt (initClassifier {}) c5frames).falling_votes ≠ none := by
  have hrun : runSt (initClassifier {}) c5frames = c5state2 := by
    simp only [c5frames, runSt, classify_c5_frame1, classify_c5_frame2]
  rw [hrun]
  constructor
  · simp [c5state2, c5tracker2, alistGet?]
  · simp [c5state2, alistGet?]

end SurveillX

namespace SurveillX

/-- Full decomposition of classify for a model-less state: the pair is
the priority arbitration over the surviving candidates together with the
stage-updated state (cooldown stamped for the winner). -/
theorem classify_eq_of_noModel (st : ClassifierState) (ps : List PersonPose) (now : ℚ)
    (hne : ¬ps.length = 0) (hm : st.lstm_model = none) :
    classify st ps now =
      (match sortActsDesc (survivingActs st ps now) with
       | [] =>
         ({ st with
            tracker := (trackerUpdate st.tracker (ps.map fun p => p.mid 11 12) now
              (ps.map PersonPose.bbox)).1
            falling_votes := (fallingLoop st.rules
              ((trackerUpdate st.tracker (ps.map fun p => p.mid 11 12) now
                (ps.map PersonPose.bbox)).2.map Prod.snd) 0 ps st.falling_votes).1
            fighting_votes := (fightingStage st.rules ps st.fighting_votes).1
            running_votes := (runningLoop (trackerUpdate st.tracker
              (ps.map fun p => p.mid 11 12) now (ps.map PersonPose.bbox)).1 st.rules now ps 0
              (trackerUpdate st.tracker (ps.map fun p => p.mid 11 12) now
                (ps.map PersonPose.bbox)).2 st.running_votes).1
            prev_keypoints := prevLoop ps 0 (trackerUpdate st.tracker
              (ps.map fun p => p.mid 11 12) now (ps.map PersonPose.bbox)).2 st.prev_keypoints
            prev_time := now }, mkResult "normal" 0 "")
       | top :: _ =>
         ({ st with
            tracker := (trackerUpdate st.tracker (ps.map fun p => p.mid 11 12) now
              (ps.map PersonPose.bbox)).1
            falling_votes := (fallingLoop st.rules
              ((trackerUpdate st.tracker (ps.map fun p => p.mid 11 12) now
                (ps.map PersonPose.bbox)).2.map Prod.snd) 0 ps st.falling_votes).1
            fighting_votes := (fightingStage st.rules ps st.fighting_votes).1
            running_votes := (runningLoop (trackerUpdate st.tracker
              (ps.map fun p => p.mid 11 12) now (ps.map PersonPose.bbox)).1 st.rules now ps 0
              (trackerUpdate st.tracker (ps.map fun p => p.mid 11 12) now
                (ps.map PersonPose.bbox)).2 st.running_votes).1
            cooldowns := alistSet top.1 now st.cooldowns
            prev_keypoints := prevLoop ps 0 (trackerUpdate st.tracker
              (ps.map fun p => p.mid 11 12) now (ps.map PersonPose.bbox)).2 st.prev_keypoints
            prev_time := now }, mkResult top.1 top.2.1 top.2.2)) := by
  simp only [classify, survivingActs, if_neg hne, lstmStage_noModel ps hm]

end SurveillX

namespace SurveillX

set_option maxRecDepth 4000 in
theorem trackerUpdate_c3 (c : ℚ × ℚ) (n : Nat) (hn : 1 ≤ n) :
    trackerUpdate
      { tracks := [(0, steadySamples c n)]
        last_seen := [(0, 5 * ((n : ℚ) - 1))]
        last_bbox := []
        next_id := 1 }
      [c] (5 * (n : ℚ)) [none] =
      ({ tracks := [(0, steadySamples c (n + 1))]
         last_seen := [(0, 5 * (n : ℚ))]
         last_bbox := []
         next_id := 1 }, [(c, 0)]) := by
  obtain ⟨m, rfl⟩ : ∃ m, n = m + 1 := ⟨n - 1, by omega⟩
  have hne := steadySamples_ne_nil c (show 1 ≤ m + 1 by omega)
  have hlast := steadySamples_getLastD c m (default : TrackEntry)
  have hbm : bestMatch
      { tracks := [(0, steadySamples c (m + 1))]
        last_seen := [(0, 5 * (((m + 1 : Nat) : ℚ) - 1))]
        last_bbox := []
        next_id := 1 } [] c none = (some 0, 1) := by
    simp only [bestMatch, List.foldl_cons, List.foldl_nil]
    rw [if_neg (by simp [hne])]
    norm_num [alistGet?]
    rw [show ((steadySamples c (m + 1)).getLast?.getD default) = (c.1, c.2, 5 * (m : ℚ))
      from by rw [← List.getLastD_eq_getLast?]; exact hlast]
    norm_num [rdist_self, Prod.mk.eta]
  have hstep : trackerStep
      { tracks := [(0, steadySamples c (m + 1))]
        last_seen := [(0, 5 * (((m + 1 : Nat) : ℚ) - 1))]
        last_bbox := []
        next_id := 1 } [] [] c none (5 * ((m + 1 : Nat) : ℚ)) =
      ({ tracks := [(0, steadySamples c (m + 1 + 1))]
         last_seen := [(0, 5 * ((m + 1 : Nat) : ℚ))]
         last_bbox := []
         next_id := 1 }, [0], [(c, 0)]) := by
    have hdq : dequeAppend 150 (steadySamples c (m + 1)) (c.1, c.2, 5 * ((m + 1 : Nat) : ℚ)) =
        steadySamples c (m + 1 + 1) := rfl
    simp only [trackerStep, hbm]
    norm_num [alistGetD, alistGet?, alistSet]
    push_cast at hdq
    exact hdq
  have hpurge : purgeStale
      { tracks := [(0, steadySamples c (m + 1 + 1))]
        last_seen := [(0, 5 * ((m + 1 : Nat) : ℚ))]
        last_bbox := []
        next_id := 1 } (5 * ((m + 1 : Nat) : ℚ)) =
      { tracks := [(0, steadySamples c (m + 1 + 1))]
        last_seen := [(0, 5 * ((m + 1 : Nat) : ℚ))]
        last_bbox := []
        next_id := 1 } := by
    norm_num [purgeStale]
  simp only [trackerUpdate, trackerLoop, List.headD, hstep, hpurge]

end SurveillX

namespace SurveillX

set_option maxRecDepth 8000 in
theorem survivingActs_c3 (p : PersonPose) (cand : Candidate)
    (hchk : checkFalling c3rules p = some cand)
    (hconf : ((9 / 20 : ℚ) : ℝ) ≤ cand.conf) (hbb : p.bbox = none)
    (n : Nat) (hn : 2 ≤ n) :
    ∃ L, survivingActs (c3state p n) [p] (5 * (n : ℚ)) =
        ("falling", cand.conf, cand.desc) :: L ∧ ∀ b ∈ L, b.1 = "loitering" := by
  have h1n : 1 ≤ n := by omega
  have hmap : [p].map (fun q => q.mid 11 12) = [p.mid 11 12] := by simp
  have hbbs : [p].map PersonPose.bbox = [none] := by simp [hbb]
  have htrk : (c3state p n).tracker =
      { tracks := [(0, steadySamples (p.mid 11 12) n)]
        last_seen := [(0, 5 * ((n : ℚ) - 1))]
        last_bbox := []
        next_id := 1 } := rfl
  have hrl : (c3state p n).rules = c3rules := rfl
  have hfv : (c3state p n).falling_votes = [(0, List.replicate (min n 5) true)] := rfl
  have hgv : (c3state p n).fighting_votes = ([] : List Bool) := rfl
  have hrv : (c3state p n).running_votes = [(0, List.replicate (min n 10) false)] := rfl
  have hlm : (c3state p n).lstm_model = none := rfl
  have htr := trackerUpdate_c3 (p.mid 11 12) n h1n
  have h_fl : fallingLoop c3rules [0] 0 [p] [(0, List.replicate (min n 5) true)] =
      ([(0, List.replicate (min (n + 1) 5) true)],
        [("falling", cand.conf, cand.desc)]) := by
    have h35 : 3 ≤ min (n + 1) 5 := by omega
    have hw : c3rules.falling_window = 5 := rfl
    have hp3 : c3rules.falling_persistence = 3 := rfl
    simp only [fallingLoop, hchk, Option.isSome_some, fallingTid, hw, hp3]
    norm_num [alistGetD, alistGet?, alistSet, dequeAppend_replicate,
      countTrue_replicate_true, h35]
  have hh1 : alistGet? 0
      ({ tracks := [(0, steadySamples (p.mid 11 12) (n + 1))]
         last_seen := [(0, 5 * (n : ℚ))]
         last_bbox := []
         next_id := 1 } : TrackerState).tracks = some (steadySamples (p.mid 11 12) (n + 1)) := by
    simp [alistGet?]
  have hcrn : checkRunning
      { tracks := [(0, steadySamples (p.mid 11 12) (n + 1))]
        last_seen := [(0, 5 * (n : ℚ))]
        last_bbox := []
        next_id := 1 } c3rules 0 (5 * (n : ℚ)) [p] 0 = none :=
    checkRunning_of_const _ _ _ hh1 (steadySamples_const (p.mid 11 12) (n + 1))
      (by norm_num [c3rules])
  have h_rn : runningLoop
      { tracks := [(0, steadySamples (p.mid 11 12) (n + 1))]
        last_seen := [(0, 5 * (n : ℚ))]
        last_bbox := []
        next_id := 1 } c3rules (5 * (n : ℚ)) [p] 0 [(p.mid 11 12, 0)]
      [(0, List.replicate (min n 10) false)] =
      ([(0, List.replicate (min (n + 1) 10) false)], []) := by
    have hr6 : c3rules.running_min_frames = 6 := rfl
    have h60 : ¬(6 ≤ countTrue (List.replicate (min (n + 1) 10) false)) := by
      rw [countTrue_replicate_false]
      omega
    simp only [runningLoop, hcrn, Option.isSome_none, hr6]
    norm_num [alistGetD, alistGet?, alistSet, dequeAppend_replicate,
      countTrue_replicate_false]
  have h_fg : fightingStage c3rules [p] [] = ([], []) := by
    simp [fightingStage]
  have hac : c3rules.activity_cooldown = 5 := rfl
  have hcool : isOnCooldown c3rules (c3state p n).cooldowns "falling" (5 * (n : ℚ)) =
      false := by
    have hcdp : (c3state p n).cooldowns =
        if 3 ≤ n then [("falling", 5 * ((n : ℚ) - 1))] else [] := rfl
    rw [hcdp]
    by_cases h3 : 3 ≤ n
    · rw [if_pos h3]
      simp only [isOnCooldown, alistGetD, alistGet?, hac, if_pos rfl]
      norm_num
      linarith
    · rw [if_neg h3]
      simp only [isOnCooldown, alistGetD, alistGet?, hac]
      have h2q : (2 : ℚ) ≤ (n : ℚ) := by exact_mod_cast hn
      norm_num
      linarith
  have hgf : c3rules.global_confidence_floor = (9 / 20 : ℚ) := rfl
  have hfloor : decide (((9 / 20 : ℚ) : ℝ) ≤ cand.conf) = true := decide_eq_true hconf
  refine ⟨((loiterLoop
      { tracks := [(0, steadySamples (p.mid 11 12) (n + 1))]
        last_seen := [(0, 5 * (n : ℚ))]
        last_bbox := []
        next_id := 1 } c3rules [(p.mid 11 12, 0)]).filter
      (fun a => decide (((9 / 20 : ℚ) : ℝ) ≤ a.2.1))).filter
      (fun a => !isOnCooldown c3rules (c3state p n).cooldowns a.1 (5 * (n : ℚ))), ?_, ?_⟩
  · simp only [survivingActs, lstmStage_noModel [p] hlm, hrl, htrk, hfv, hgv, hrv, hmap,
      hbbs, htr, h_fl, h_fg, h_rn, List.map_cons, List.map_nil, List.nil_append,
      List.append_nil, hgf, List.filter_cons, hfloor, hcool, Bool.not_false, if_true]
    simp only [List.singleton_append, List.filter_cons, hfloor, hcool, Bool.not_false,
      if_true]
  · intro b hb
    have hb1 := (List.mem_filter.mp hb).1
    have hb2 := (List.mem_filter.mp hb1).1
    exact loiterLoop_types _ _ _ b hb2

end SurveillX

namespace SurveillX

theorem sortActsDesc_falling_first (conf : ℝ) (d : String) (L : List Act)
    (hL : ∀ b ∈ L, b.1 = "loitering") :
    sortActsDesc (("falling", conf, d) :: L) = ("falling", conf, d) :: sortActsDesc L := by
  show insertActDesc ("falling", conf, d) (sortActsDesc L) =
    ("falling", conf, d) :: sortActsDesc L
  refine insertActDesc_front ?_
  intro b hb
  rw [hL b (mem_sortActsDesc.mp hb)]
  norm_num [activityPriority]
  decide

set_option maxRecDepth 8000 in
theorem classify_c3_step2 (p : PersonPose) (cand : Candidate)
    (hchk : checkFalling c3rules p = some cand)
    (hconf : ((9 / 20 : ℚ) : ℝ) ≤ cand.conf) (hbb : p.bbox = none)
    (n : Nat) (hn : 2 ≤ n) :
    classify (c3state p n) [p] (5 * (n : ℚ)) =
      (c3state p (n + 1), mkResult "falling" cand.conf cand.desc) := by
  obtain ⟨L, hsv, hL⟩ := survivingActs_c3 p cand hchk hconf hbb n hn
  have h1n : 1 ≤ n := by omega
  have hmap : [p].map (fun q => q.mid 11 12) = [p.mid 11 12] := by simp
  have hbbs : [p].map PersonPose.bbox = [none] := by simp [hbb]
  have htrk : (c3state p n).tracker =
      { tracks := [(0, steadySamples (p.mid 11 12) n)]
        last_seen := [(0, 5 * ((n : ℚ) - 1))]
        last_bbox := []
        next_id := 1 } := rfl
  have hrl : (c3state p n).rules = c3rules := rfl
  have hfv : (c3state p n).falling_votes = [(0, List.replicate (min n 5) true)] := rfl
  have hgv : (c3state p n).fighting_votes = ([] : List Bool) := rfl
  have hrv : (c3state p n).running_votes = [(0, List.replicate (min n 10) false)] := rfl
  have hlm : (c3state p n).lstm_model = none := rfl
  have hcdp : (c3state p n).cooldowns =
      if 3 ≤ n then [("falling", 5 * ((n : ℚ) - 1))] else [] := rfl
  have hpkp : (c3state p n).prev_keypoints = [(0, p.keypoints)] := rfl
  have htr := trackerUpdate_c3 (p.mid 11 12) n h1n
  have h_fl : fallingLoop c3rules [0] 0 [p] [(0, List.replicate (min n 5) true)] =
      ([(0, List.replicate (min (n + 1) 5) true)],
        [("falling", cand.conf, cand.desc)]) := by
    have h35 : 3 ≤ min (n + 1) 5 := by omega
    have hw : c3rules.falling_window = 5 := rfl
    have hp3 : c3rules.falling_persistence = 3 := rfl
    simp only [fallingLoop, hchk, Option.isSome_some, fallingTid, hw, hp3]
    norm_num [alistGetD, alistGet?, alistSet, dequeAppend_replicate,
      countTrue_replicate_true, h35]
  have hh1 : alistGet? 0
      ({ tracks := [(0, steadySamples (p.mid 11 12) (n + 1))]
         last_seen := [(0, 5 * (n : ℚ))]
         last_bbox := []
         next_id := 1 } : TrackerState).tracks = some (steadySamples (p.mid 11 12) (n + 1)) := by
    simp [alistGet?]
  have hcrn : checkRunning
      { tracks := [(0, steadySamples (p.mid 11 12) (n + 1))]
        last_seen := [(0, 5 * (n : ℚ))]
        last_bbox := []
        next_id := 1 } c3rules 0 (5 * (n : ℚ)) [p] 0 = none :=
    checkRunning_of_const _ _ _ hh1 (steadySamples_const (p.mid 11 12) (n + 1))
      (by norm_num [c3rules])
  have h_rn : runningLoop
      { tracks := [(0, steadySamples (p.mid 11 12) (n + 1))]
        last_seen := [(0, 5 * (n : ℚ))]
        last_bbox := []
        next_id := 1 } c3rules (5 * (n : ℚ)) [p] 0 [(p.mid 11 12, 0)]
      [(0, List.replicate (min n 10) false)] =
      ([(0, List.replicate (min (n + 1) 10) false)], []) := by
    have hr6 : c3rules.running_min_frames = 6 := rfl
    have h60 : ¬(6 ≤ countTrue (List.replicate (min (n + 1) 10) false)) := by
      rw [countTrue_replicate_false]
      omega
    simp only [runningLoop, hcrn, Option.isSome_none, hr6]
    norm_num [alistGetD, alistGet?, alistSet, dequeAppend_replicate,
      countTrue_replicate_false]
  have h_fg : fightingStage c3rules [p] [] = ([], []) := by
    simp [fightingStage]
  have h_pk : prevLoop [p] 0 [(p.mid 11 12, 0)] [(0, p.keypoints)] = [(0, p.keypoints)] := by
    norm_num [prevLoop, alistSet]
  have hco : alistSet "falling" (5 * (n : ℚ))
      (if 3 ≤ n then [("falling", 5 * ((n : ℚ) - 1))] else []) =
      [("falling", 5 * (n : ℚ))] := by
    by_cases h3 : 3 ≤ n
    · rw [if_pos h3]
      simp [alistSet]
    · rw [if_neg h3]
      simp [alistSet]
  rw [classify_eq_of_noModel _ _ _ (by simp) hlm, hsv,
    sortActsDesc_falling_first cand.conf cand.desc L hL]
  simp only [hmap, hbbs, htrk, hrl, hfv, hgv, hrv, hcdp, hpkp, htr, h_fl, h_fg, h_rn,
    h_pk, List.map_cons, List.map_nil, hco]
  simp only [c3state, c3rules]
  rw [if_pos (show 3 ≤ n + 1 by omega)]
  norm_num

end SurveillX

namespace SurveillX

set_option maxRecDepth 8000 in
theorem classify_c3_step1 (p : PersonPose) (hchk : checkFalling c3rules p = some cand)
    (hbb : p.bbox = none) :
    classify (c3state p 1) [p] (5 * ((1 : Nat) : ℚ)) =
      (c3state p 2, mkResult "normal" 0 "") := by
  have hmap : [p].map (fun q => q.mid 11 12) = [p.mid 11 12] := by simp
  have hbbs : [p].map PersonPose.bbox = [none] := by simp [hbb]
  have htrk : (c3state p 1).tracker =
      { tracks := [(0, steadySamples (p.mid 11 12) 1)]
        last_seen := [(0, 5 * (((1 : Nat) : ℚ) - 1))]
        last_bbox := []
        next_id := 1 } := by
    norm_num [c3state]
  have hrl : (c3state p 1).rules = c3rules := rfl
  have hfv : (c3state p 1).falling_votes = [(0, List.replicate (min 1 5) true)] := rfl
  have hgv : (c3state p 1).fighting_votes = ([] : List Bool) := rfl
  have hrv : (c3state p 1).running_votes = [(0, List.replicate (min 1 10) false)] := rfl
  have hlm : (c3state p 1).lstm_model = none := rfl
  have hcdp : (c3state p 1).cooldowns = ([] : List (String × ℚ)) := rfl
  have hpkp : (c3state p 1).prev_keypoints = [(0, p.keypoints)] := rfl
  have htr := trackerUpdate_c3 (p.mid 11 12) 1 (by omega)
  have h_fl : fallingLoop c3rules [0] 0 [p] [(0, List.replicate (min 1 5) true)] =
      ([(0, List.replicate (min 2 5) true)], []) := by
    have h35 : ¬(3 ≤ min 2 5) := by omega
    have hw : c3rules.falling_window = 5 := rfl
    have hp3 : c3rules.falling_persistence = 3 := rfl
    simp only [fallingLoop, hchk, Option.isSome_some, fallingTid, hw, hp3]
    norm_num [alistGetD, alistGet?, alistSet]
    decide
  have hh1 : alistGet? 0
      ({ tracks := [(0, steadySamples (p.mid 11 12) 2)]
         last_seen := [(0, 5 * ((1 : Nat) : ℚ))]
         last_bbox := []
         next_id := 1 } : TrackerState).tracks = some (steadySamples (p.mid 11 12) 2) := by
    simp [alistGet?]
  have hcrn : checkRunning
      { tracks := [(0, steadySamples (p.mid 11 12) 2)]
        last_seen := [(0, 5 * ((1 : Nat) : ℚ))]
        last_bbox := []
        next_id := 1 } c3rules 0 (5 * ((1 : Nat) : ℚ)) [p] 0 = none :=
    checkRunning_of_const _ _ _ hh1 (steadySamples_const (p.mid 11 12) 2)
      (by norm_num [c3rules])
  have h_rn : runningLoop
      { tracks := [(0, steadySamples (p.mid 11 12) 2)]
        last_seen := [(0, 5 * ((1 : Nat) : ℚ))]
        last_bbox := []
        next_id := 1 } c3rules (5 * ((1 : Nat) : ℚ)) [p] 0 [(p.mid 11 12, 0)]
      [(0, List.replicate (min 1 10) false)] =
      ([(0, List.replicate (min 2 10) false)], []) := by
    have hr6 : c3rules.running_min_frames = 6 := rfl
    simp only [runningLoop, hcrn, Option.isSome_none, hr6]
    norm_num [alistGetD, alistGet?, alistSet]
    decide
  have h_fg : fightingStage c3rules [p] [] = ([], []) := by
    simp [fightingStage]
  have h_lo : loiterLoop
      { tracks := [(0, steadySamples (p.mid 11 12) 2)]
        last_seen := [(0, 5 * ((1 : Nat) : ℚ))]
        last_bbox := []
        next_id := 1 } c3rules [(p.mid 11 12, 0)] = [] := by
    have hshort : checkLoitering
        { tracks := [(0, steadySamples (p.mid 11 12) 2)]
          last_seen := [(0, 5 * ((1 : Nat) : ℚ))]
          last_bbox := []
          next_id := 1 } c3rules 0 = none := by
      refine checkLoitering_short hh1 ?_
      rw [steadySamples_length]
      omega
    simp only [loiterLoop, hshort]
    simp [loiterLoop]
  have h_pk : prevLoop [p] 0 [(p.mid 11 12, 0)] [(0, p.keypoints)] = [(0, p.keypoints)] := by
    norm_num [prevLoop, alistSet]
  have hsv : survivingActs (c3state p 1) [p] (5 * ((1 : Nat) : ℚ)) = [] := by
    simp only [survivingActs, lstmStage_noModel [p] hlm, hrl, htrk, hfv, hgv, hrv, hmap,
      hbbs, htr, h_fl, h_fg, h_rn, h_lo, List.map_cons, List.map_nil, List.nil_append,
      List.append_nil, List.filter_nil]
  rw [classify_eq_of_noModel _ _ _ (by simp) hlm, hsv]
  simp only [hmap, hbbs, htrk, hrl, hfv, hgv, hrv, hcdp, hpkp, htr, h_fl, h_fg, h_rn,
    h_pk, List.map_cons, List.map_nil, sortActsDesc]
  simp only [c3state, c3rules]
  norm_num

end SurveillX

namespace SurveillX

set_option maxRecDepth 8000 in
theorem classify_c3_base (p : PersonPose) (cand : Candidate)
    (hchk : checkFalling c3rules p = some cand) (hbb : p.bbox = none) :
    classify (initClassifier c3rules) [p] (5 * ((0 : Nat) : ℚ)) =
      (c3state p 1, mkResult "normal" 0 "") := by
  have hmap : [p].map (fun q => q.mid 11 12) = [p.mid 11 12] := by simp
  have hbbs : [p].map PersonPose.bbox = [none] := by simp [hbb]
  have hrl : (initClassifier c3rules).rules = c3rules := rfl
  have htrk : (initClassifier c3rules).tracker = ({} : TrackerState) := rfl
  have hfv : (initClassifier c3rules).falling_votes = ([] : List (Nat × List Bool)) := rfl
  have hgv : (initClassifier c3rules).fighting_votes = ([] : List Bool) := rfl
  have hrv : (initClassifier c3rules).running_votes = ([] : List (Nat × List Bool)) := rfl
  have hlm : (initClassifier c3rules).lstm_model = none := rfl
  have hcdp : (initClassifier c3rules).cooldowns = ([] : List (String × ℚ)) := rfl
  have hpkp : (initClassifier c3rules).prev_keypoints = ([] : List (Nat × Arr2)) := rfl
  have hs1 : steadySamples (p.mid 11 12) 1 =
      [((p.mid 11 12).1, (p.mid 11 12).2, 0)] := by
    simp [steadySamples, dequeAppend]
  have htr : trackerUpdate ({} : TrackerState) [p.mid 11 12] (5 * ((0 : Nat) : ℚ)) [none] =
      ({ tracks := [(0, steadySamples (p.mid 11 12) 1)]
         last_seen := [(0, 5 * (((1 : Nat) : ℚ) - 1))]
         last_bbox := []
         next_id := 1 }, [(p.mid 11 12, 0)]) := by
    rw [hs1]
    norm_num [trackerUpdate, trackerLoop, trackerStep, bestMatch, purgeStale, alistGetD,
      alistGet?, alistSet, dequeAppend]
  have h_fl : fallingLoop c3rules [0] 0 [p] [] = ([(0, [true])], []) := by
    have hw : c3rules.falling_window = 5 := rfl
    have hp3 : c3rules.falling_persistence = 3 := rfl
    simp only [fallingLoop, hchk, Option.isSome_some, fallingTid, hw, hp3]
    norm_num [alistGetD, alistGet?, alistSet]
    decide
  have hh1 : alistGet? 0
      ({ tracks := [(0, steadySamples (p.mid 11 12) 1)]
         last_seen := [(0, 5 * (((1 : Nat) : ℚ) - 1))]
         last_bbox := []
         next_id := 1 } : TrackerState).tracks = some (steadySamples (p.mid 11 12) 1) := by
    simp [alistGet?]
  have hv0 : getVelocity
      { tracks := [(0, steadySamples (p.mid 11 12) 1)]
        last_seen := [(0, 5 * (((1 : Nat) : ℚ) - 1))]
        last_bbox := []
        next_id := 1 } 0 5 = none := by
    simp only [getVelocity, hh1]
    rw [if_pos]
    right
    rw [steadySamples_length]
    omega
  have hcrn := @checkRunning_of_none
    { tracks := [(0, steadySamples (p.mid 11 12) 1)]
      last_seen := [(0, 5 * (((1 : Nat) : ℚ) - 1))]
      last_bbox := []
      next_id := 1 } c3rules 0 (5 * ((0 : Nat) : ℚ)) [p] 0 hv0
  have h_rn : runningLoop
      { tracks := [(0, steadySamples (p.mid 11 12) 1)]
        last_seen := [(0, 5 * (((1 : Nat) : ℚ) - 1))]
        last_bbox := []
        next_id := 1 } c3rules (5 * ((0 : Nat) : ℚ)) [p] 0 [(p.mid 11 12, 0)] [] =
      ([(0, [false])], []) := by
    have hr6 : c3rules.running_min_frames = 6 := rfl
    simp only [runningLoop, hcrn, Option.isSome_none, hr6]
    norm_num [alistGetD, alistGet?, alistSet]
    decide
  have h_fg : fightingStage c3rules [p] [] = ([], []) := by
    simp [fightingStage]
  have h_lo : loiterLoop
      { tracks := [(0, steadySamples (p.mid 11 12) 1)]
        last_seen := [(0, 5 * (((1 : Nat) : ℚ) - 1))]
        last_bbox := []
        next_id := 1 } c3rules [(p.mid 11 12, 0)] = [] := by
    have hshort : checkLoitering
        { tracks := [(0, steadySamples (p.mid 11 12) 1)]
          last_seen := [(0, 5 * (((1 : Nat) : ℚ) - 1))]
          last_bbox := []
          next_id := 1 } c3rules 0 = none := by
      refine checkLoitering_short hh1 ?_
      rw [steadySamples_length]
      omega
    simp only [loiterLoop, hshort]
    simp [loiterLoop]
  have h_pk : prevLoop [p] 0 [(p.mid 11 12, 0)] [] = [(0, p.keypoints)] := by
    norm_num [prevLoop, alistSet]
  have hsv : survivingActs (initClassifier c3rules) [p] (5 * ((0 : Nat) : ℚ)) = [] := by
    simp only [survivingActs, lstmStage_noModel [p] hlm, hrl, htrk, hfv, hgv, hrv, hmap,
      hbbs, htr, h_fl, h_fg, h_rn, h_lo, List.map_cons, List.map_nil, List.nil_append,
      List.append_nil, List.filter_nil]
  rw [classify_eq_of_noModel _ _ _ (by simp) hlm, hsv]
  simp only [hmap, hbbs, htrk, hrl, hfv, hgv, hrv, hcdp, hpkp, htr, h_fl, h_fg, h_rn,
    h_pk, List.map_cons, List.map_nil, sortActsDesc]
  simp only [c3state, c3rules, initClassifier]
  norm_num

end SurveillX

namespace SurveillX

theorem classify_c3_step (p : PersonPose) (cand : Candidate)
    (hchk : checkFalling c3rules p = some cand)
    (hconf : ((9 / 20 : ℚ) : ℝ) ≤ cand.conf) (hbb : p.bbox = none)
    (n : Nat) (hn : 1 ≤ n) :
    classify (c3state p n) [p] (5 * (n : ℚ)) =
      (c3state p (n + 1),
        if 2 ≤ n then mkResult "falling" cand.conf cand.desc
        else mkResult "normal" 0 "") := by
  rcases Nat.lt_or_ge n 2 with h2 | h2
  · have h1 : n = 1 := by omega
    subst h1
    rw [if_neg (by omega)]
    exact classify_c3_step1 p hchk hbb
  · rw [if_pos h2]
    exact classify_c3_step2 p cand hchk hconf hbb n h2

theorem c3frames_succ (p : PersonPose) (n : Nat) :
    c3frames p (n + 1) = c3frames p n ++ [([p], 5 * (n : ℚ))] := by
  simp [c3frames, c3framesFrom, ← List.range_eq_range', List.range_succ]

theorem c3_runSt (p : PersonPose) (cand : Candidate)
    (hchk : checkFalling c3rules p = some cand)
    (hconf : ((9 / 20 : ℚ) : ℝ) ≤ cand.conf) (hbb : p.bbox = none) :
    ∀ n, 1 ≤ n → runSt (initClassifier c3rules) (c3frames p n) = c3state p n := by
  intro n
  induction n with
  | zero => intro hn; omega
  | succ m ih =>
    intro _
    rcases Nat.eq_zero_or_pos m with hm | hm
    · subst hm
      have h1 : c3frames p 1 = [([p], 5 * ((0 : Nat) : ℚ))] := by
        simp [c3frames, c3framesFrom, List.range']
      rw [h1]
      simp only [runSt, classify_c3_base p cand hchk hbb]
    · rw [c3frames_succ, runSt_append, ih hm]
      simp only [runSt, classify_c3_step p cand hchk hconf hbb m hm]

/-- Claim C3: persistence exactness.  With falling persistence 3 and
window 5, feeding one tracked person the same qualifying fallen pose on
every frame (five seconds apart, so no confirmation is suppressed by the
cooldown) yields a normal result on the first two frames and a falling
result on every frame from the third on. -/
theorem C3_persistence_exactness (p : PersonPose) (cand : Candidate)
    (hchk : checkFalling c3rules p = some cand)
    (hconf : ((9 / 20 : ℚ) : ℝ) ≤ cand.conf) (hbb : p.bbox = none)
    (n k : Nat) (hk : k < n) :
    ((runResults (initClassifier c3rules) (c3frames p n)).getD k default).type =
      if k < 2 then "normal" else "falling" := by
  have hlen : (c3frames p n).length = n := by
    simp only [c3frames, c3framesFrom, List.length_map, List.length_range']
  have hgd : (c3frames p n).getD k default = ([p], 5 * (k : ℚ)) := by
    rw [List.getD_eq_getElem _ _ (by rw [hlen]; exact hk)]
    simp only [c3frames, c3framesFrom, List.getElem_map, List.getElem_range',
      Nat.zero_add, Nat.one_mul]
  have htake : (c3frames p n).take k = c3frames p k := by
    simp only [c3frames, c3framesFrom, ← List.map_take]
    congr 1
    rw [← List.range_eq_range', ← List.range_eq_range', List.take_range,
      min_eq_left hk.le]
  rw [runResults_getD _ _ _ (by rw [hlen]; exact hk), hgd, htake]
  rcases Nat.eq_zero_or_pos k with hk0 | hk1
  · subst hk0
    have h0 : c3frames p 0 = [] := by simp [c3frames, c3framesFrom]
    rw [h0]
    simp only [runSt]
    rw [show ((5 : ℚ) * ((0 : Nat) : ℚ)) = 5 * ((0 : Nat) : ℚ) from rfl]
    rw [classify_c3_base p cand hchk hbb]
    simp [mkResult_type]
  · rw [c3_runSt p cand hchk hconf hbb k hk1]
    rw [classify_c3_step p cand hchk hconf hbb k hk1]
    by_cases h2 : 2 ≤ k
    · rw [if_pos h2, if_neg (by omega)]
      simp [mkResult_type]
    · rw [if_neg h2, if_pos (by omega)]
      simp [mkResult_type]

/-- Witness for C3 at the flat pose over three frames: normal on frames
one and two, falling on frame three. -/
theorem C3_witness :
    ((runResults (initClassifier c3rules) (c3frames flatPose 3)).getD 0 default).type =
      "normal" ∧
    ((runResults (initClassifier c3rules) (c3frames flatPose 3)).getD 1 default).type =
      "normal" ∧
    ((runResults (initClassifier c3rules) (c3frames flatPose 3)).getD 2 default).type =
      "falling" := by
  have h0 := C3_persistence_exactness flatPose
    ⟨9 / 10, "Person appears to have fallen (body angle)"⟩ checkFalling_flatPose_c3
    (by norm_num) rfl 3 0 (by norm_num)
  have h1 := C3_persistence_exactness flatPose
    ⟨9 / 10, "Person appears to have fallen (body angle)"⟩ checkFalling_flatPose_c3
    (by norm_num) rfl 3 1 (by norm_num)
  have h2 := C3_persistence_exactness flatPose
    ⟨9 / 10, "Person appears to have fallen (body angle)"⟩ checkFalling_flatPose_c3
    (by norm_num) rfl 3 2 (by norm_num)
  exact ⟨by simpa using h0, by simpa using h1, by simpa using h2⟩

end SurveillX
